import Mathlib

set_option maxHeartbeats 1000000

/-!
Shallow embedding of the GamifyFit repository (service worker, gamification
manager, activity tracker, workout plan generator, OAuth callback handler)
with theorems settling the specification claims.

JS numbers appearing in the embedded code paths are natural numbers in all
reachable states, so they are modelled as `Nat`; `Math.floor` of a nonnegative
division is `Nat` division.  Dates are modelled by an abstract day index
(`Nat`, one per calendar day, as compared by `toDateString`) and ISO timestamp
strings are passed in as inputs.  Randomness (`Math.random`) and the network
are modelled as explicit oracle inputs.
-/

namespace GamifyFit

/-! ## String helpers (models of the JS string primitives used by the code) -/

/-- `charListBeginsWith s p` : the char list `p` is an initial segment of `s`. -/
def charListBeginsWith : List Char → List Char → Bool
  | _, [] => true
  | [], _ :: _ => false
  | c :: cs, p :: ps => c == p && charListBeginsWith cs ps

/-- `charListHas s p` : the char list `p` occurs contiguously inside `s`. -/
def charListHas : List Char → List Char → Bool
  | [], p => p.isEmpty
  | s@(_ :: rest), p => charListBeginsWith s p || charListHas rest p

/-- Model of JS `String.prototype.includes`. -/
def strContains (s pat : String) : Bool :=
  charListHas s.data pat.data

/-- Model of JS `String.prototype.startsWith`. -/
def strBeginsWith (s pre : String) : Bool :=
  charListBeginsWith s.data pre.data

/-- Model of JS `String.prototype.endsWith`. -/
def strFinishesWith (s suf : String) : Bool :=
  charListBeginsWith s.data.reverse suf.data.reverse

/-- Split a char list at every occurrence of the separator character. -/
def splitOnChar (sep : Char) : List Char → List (List Char)
  | [] => [[]]
  | c :: cs =>
    let r := splitOnChar sep cs
    if c == sep then [] :: r
    else
      match r with
      | [] => [[c]]
      | h :: t => (c :: h) :: t

/-- Model of JS `String.prototype.split` with a one-character separator. -/
def strSplitOn (s : String) (sep : Char) : List String :=
  (splitOnChar sep s.data).map String.mk

/-- Model of JS `String.prototype.trim` (strip leading/trailing whitespace). -/
def strTrim (s : String) : String :=
  String.mk (((s.data.dropWhile Char.isWhitespace).reverse.dropWhile
    Char.isWhitespace).reverse)

/-! ## Service worker: fetch routing (sw.js, fetch listener and helpers) -/

/-- The `STATIC_ASSETS` precache list from sw.js. -/
def STATIC_ASSETS : List String :=
  ["/", "/index.html", "/auth.html", "/onboarding.html", "/dashboard.html",
   "/challenges.html", "/plan.html", "/progress.html", "/leaderboard.html",
   "/achievements.html", "/profile.html", "/offline.html", "/manifest.json",
   "/css/global.css", "/css/dashboard.css", "/css/challenges.css",
   "/css/plan.css", "/css/leaderboard.css", "/js/auth.js", "/js/onboarding.js",
   "/js/dashboard.js", "/js/googlefit.js", "/js/planGenerator.js",
   "/js/gamification.js", "/js/leaderboard.js", "/js/pwa.js",
   "/js/notifications.js", "/assets/icons/icon-192x192.png",
   "/assets/icons/icon-512x512.png", "/assets/icons/maskable-icon-192x192.png",
   "/assets/icons/maskable-icon-512x512.png"]

/-- The `API_ENDPOINTS` list from sw.js. -/
def API_ENDPOINTS : List String :=
  ["/backend/api.php", "/api/", "https://www.googleapis.com/fitness/"]

/-- The `staticExtensions` list from `isStaticAsset` in sw.js. -/
def staticExtensions : List String :=
  [".css", ".js", ".png", ".jpg", ".jpeg", ".gif", ".svg", ".ico",
   ".woff", ".woff2"]

/-- An intercepted request: the fields of `event.request` / `new URL(...)`
that the fetch listener reads. -/
structure SWRequest where
  method : String
  protocol : String
  href : String
  pathname : String
  mode : String
deriving DecidableEq, Repr

/-- `isApiRequest(url)` from sw.js: some API endpoint occurs in `url.href`. -/
def isApiRequest (req : SWRequest) : Bool :=
  API_ENDPOINTS.any (fun endp => strContains req.href endp)

/-- `isStaticAsset(url)` from sw.js: the pathname ends with a static extension
or is on the precache list. -/
def isStaticAsset (req : SWRequest) : Bool :=
  staticExtensions.any (fun ext => strFinishesWith req.pathname ext) ||
  STATIC_ASSETS.contains req.pathname

/-- The four caching strategies of sw.js. -/
inductive Strategy where
  | networkFirst
  | cacheFirst
  | navigation
  | staleWhileRevalidate
deriving DecidableEq, Repr

/-- The fetch listener of sw.js: non-GET and non-http(s) requests are not
handled (`none`); otherwise exactly one strategy is chosen, in the source's
order: API → network-first, static asset → cache-first, navigation mode →
navigation handler, otherwise stale-while-revalidate. -/
def handleFetch (req : SWRequest) : Option Strategy :=
  if req.method ≠ "GET" then none
  else if ¬ strBeginsWith req.protocol "http" then none
  else if isApiRequest req then some .networkFirst
  else if isStaticAsset req then some .cacheFirst
  else if req.mode = "navigate" then some .navigation
  else some .staleWhileRevalidate

/-! ## Service worker: caching strategies (sw.js lines 133-224)

The cache is modelled as a predicate on URLs (`caches.match` succeeds on a
URL iff the predicate holds); the value model of each strategy is the
response it resolves to.  `cache.put` of successful responses is a
fire-and-forget side effect on the cache stores and is not part of the
resolved response, which is the observable the claims are about. -/

/-- Outcome of a `fetch(request)` call: the network either throws or yields a
response whose `ok` flag is recorded. -/
inductive FetchResult where
  | failure
  | success (ok : Bool)
deriving DecidableEq, Repr

/-- A response as resolved by one of the caching strategies. -/
inductive SWResponse where
  /-- a response found in the cache under the given URL -/
  | cached (url : String)
  /-- a response obtained from the network -/
  | network (ok : Bool)
  /-- the synthesized `503` JSON body
  `\x7b error: offline, message: You are currently offline \x7d`
  built by `networkFirstWithCache` -/
  | offlineJson503
deriving DecidableEq, Repr

/-- `cacheFirstWithNetwork` from sw.js: cache hit, else network, and on a
thrown fetch the result of `caches.match(/offline.html)` (which is `none`
when the offline page is not cached). -/
def cacheFirstWithNetwork (cache : String → Bool) (net : FetchResult)
    (url : String) : Option SWResponse :=
  if cache url then some (.cached url)
  else
    match net with
    | .success ok => some (.network ok)
    | .failure =>
      if cache "/offline.html" then some (.cached "/offline.html") else none

/-- `networkFirstWithCache` from sw.js: network, and on a thrown fetch the
cached response if any, else the synthesized offline 503 JSON response. -/
def networkFirstWithCache (cache : String → Bool) (net : FetchResult)
    (url : String) : Option SWResponse :=
  match net with
  | .success ok => some (.network ok)
  | .failure =>
    if cache url then some (.cached url) else some .offlineJson503

/-- `staleWhileRevalidate` from sw.js.  The source returns
`cachedResponse || fetchPromise || caches.match(/offline.html)`; since a
promise object is always truthy, the third alternative is unreachable and a
failed fetch with no cache entry resolves to `null` (`none` here). -/
def staleWhileRevalidate (cache : String → Bool) (net : FetchResult)
    (url : String) : Option SWResponse :=
  if cache url then some (.cached url)
  else
    match net with
    | .success ok => some (.network ok)
    | .failure => none

/-- `navigationHandler` from sw.js: network, and on a thrown fetch the cached
page if any, else the result of `caches.match(/offline.html)`. -/
def navigationHandler (cache : String → Bool) (net : FetchResult)
    (url : String) : Option SWResponse :=
  match net with
  | .success ok => some (.network ok)
  | .failure =>
    if cache url then some (.cached url)
    else if cache "/offline.html" then some (.cached "/offline.html") else none

/-- The property claimed of all fallback responses: a previously cached
response for the request itself, or the static `/offline.html` page. -/
def cachedOrOfflinePage (url : String) (r : Option SWResponse) : Prop :=
  r = some (.cached url) ∨ r = some (.cached "/offline.html")

/-! ## Service worker: offline sync queue (sw.js lines 238-308, 418-466) -/

/-- A record of the `offline_sync_queue` IndexedDB store (keyPath `id`,
autoincremented and hence unique; the payload is the JSON body sent). -/
structure QueueItem where
  id : Nat
  action_type : String
  payload : String
deriving DecidableEq, Repr

/-- Outcome of the `fetch` posting one queue item: a network error (the
promise rejects) or a response with the given HTTP status. -/
inductive SyncOutcome where
  | netError
  | status (code : Nat)
deriving DecidableEq, Repr

/-- `response.ok` of the Fetch API: status in the range 200-299. -/
def respOk : SyncOutcome → Bool
  | .netError => false
  | .status code => decide (200 ≤ code ∧ code ≤ 299)

/-- `deleteFromStore(db, store, key)` from sw.js: remove the record with the
given key from the store. -/
def deleteFromStore (store : List QueueItem) (key : Nat) : List QueueItem :=
  store.filter (fun it => it.id ≠ key)

/-- One iteration of the sync loops of sw.js: if the item's `action_type`
matches the event's tag, POST it; delete it from the store exactly when the
response is ok, keep it (with no modification) on a network error or a
non-ok response. -/
def syncStep (tag : String) (resp : QueueItem → SyncOutcome)
    (store : List QueueItem) (item : QueueItem) : List QueueItem :=
  if item.action_type = tag then
    match resp item with
    | .netError => store
    | .status code =>
      if respOk (.status code) then deleteFromStore store item.id else store
  else store

/-- `syncChallengeCompletions` from sw.js: snapshot the queue with
`getAllFromStore`, then run the sync loop for tag `challenge_complete`.
The endpoint posted to is fixed; the oracle `resp` gives each attempt's
outcome.  The result is the store contents after the loop. -/
def syncChallengeCompletions (store : List QueueItem)
    (resp : QueueItem → SyncOutcome) : List QueueItem :=
  let queue := store
  queue.foldl (syncStep "challenge_complete" resp) store

/-- `syncActivityData` from sw.js: identical loop for tag `activity_data`. -/
def syncActivityData (store : List QueueItem)
    (resp : QueueItem → SyncOutcome) : List QueueItem :=
  let queue := store
  queue.foldl (syncStep "activity_data" resp) store

/-! ## Gamification manager (js/gamification.js)

The manager's `this.data` object.  `history` records are kept; badge display
metadata (name, description, icon, tier, category) is not read by any logic
and is omitted from the badge table, which keeps `id`, `xp` and `condition`.
Calendar days are abstract `Nat` indices (equal iff `toDateString` values are
equal); ISO timestamps are opaque strings passed in by the caller. -/

structure Streak where
  current : Nat
  longest : Nat
  lastActivity : Option Nat
deriving DecidableEq, Repr

structure GamStats where
  totalWorkouts : Nat
  totalSteps : Nat
  totalCalories : Nat
  totalMinutes : Nat
  pushups : Nat
  squats : Nat
  runDistance : Nat
deriving DecidableEq, Repr

structure ActiveChallenge where
  id : Nat
  joinedAt : String
  progress : Nat
deriving DecidableEq, Repr

structure ChallengesData where
  completed : Nat
  active : List ActiveChallenge
deriving DecidableEq, Repr

inductive HistoryEntry where
  | xpGain (amount : Nat) (source : String) (timestamp : String)
  | badgeAward (badgeId : String) (xp : Nat) (timestamp : String)
deriving DecidableEq, Repr

structure GamificationData where
  xp : Nat
  level : Nat
  streak : Streak
  badges : List String
  challenges : ChallengesData
  stats : GamStats
  history : List HistoryEntry
deriving DecidableEq, Repr

namespace GamificationManager

/-- `this.storageKey` of GamificationManager. -/
def storageKey : String := "GamifyFit_gamification"

/-- `getDefaultData()` from gamification.js. -/
def getDefaultData : GamificationData :=
  { xp := 0
    level := 1
    streak := { current := 0, longest := 0, lastActivity := none }
    badges := []
    challenges := { completed := 0, active := [] }
    stats := { totalWorkouts := 0, totalSteps := 0, totalCalories := 0,
               totalMinutes := 0, pushups := 0, squats := 0, runDistance := 0 }
    history := [] }

/-- `Math.floor(100 * Math.pow(1.15, i - 1))` of `generateLevelThresholds`,
with the real arithmetic taken exactly: `⌊100 * (23/20)^(i-1)⌋`. -/
def xpRequired (i : Nat) : Nat :=
  100 * 23 ^ (i - 1) / 20 ^ (i - 1)

/-- The loop of `generateLevelThresholds`: for `i = 1..50` append
`thresholds[i-1] + xpRequired i`, starting from `[0]`.  `prev` is the last
threshold pushed, `i` the current loop index, `remaining` the iterations
left. -/
def thresholdsFrom (prev i remaining : Nat) : List Nat :=
  match remaining with
  | 0 => []
  | r + 1 =>
    let t := prev + xpRequired i
    t :: thresholdsFrom t (i + 1) r

/-- `generateLevelThresholds()` from gamification.js: 51 entries,
`thresholds[0] = 0`. -/
def levelThresholds : List Nat := 0 :: thresholdsFrom 0 1 50

/-- The downward scan of `calculateLevel`: starting at index `i`, return
`i + 1` for the first `i` with `xp ≥ thresholds[i]`.  At index 0 the source
returns 1 whether or not the guard holds (`thresholds[0] = 0`, and the
fallthrough `return 1` coincide). -/
def calcLevelFrom (ts : List Nat) (xp : Nat) : Nat → Nat
  | 0 => 1
  | i + 1 => if ts.getD (i + 1) 0 ≤ xp then i + 2 else calcLevelFrom ts xp i

/-- `calculateLevel(xp)` from gamification.js. -/
def calculateLevel (xp : Nat) : Nat :=
  calcLevelFrom levelThresholds xp (levelThresholds.length - 1)

/-- The `titles` table of `getLevelTitle`, in the order `Object.entries`
enumerates its integer-like keys (ascending). -/
def levelTitles : List (Nat × String) :=
  [(1, "Rookie"), (5, "Beginner"), (10, "Rising Star"), (15, "Committed"),
   (20, "Dedicated"), (25, "Warrior"), (30, "Champion"), (35, "Elite"),
   (40, "Master"), (45, "Legend"), (50, "GamifyFit Master")]

/-- `getLevelTitle(level)` from gamification.js. -/
def getLevelTitle (level : Nat) : String :=
  levelTitles.foldl (fun title p => if p.1 ≤ level then p.2 else title) "Rookie"

/-- One badge of `getBadgeDefinitions()`: its id, XP reward and condition
(the closures read `data` and, for the level badges, `manager.data.level`,
which is the same object). -/
structure BadgeDef where
  id : String
  xp : Nat
  condition : GamificationData → Bool

/-- `getBadgeDefinitions()` from gamification.js, in the insertion order that
`Object.entries` enumerates. -/
def badgeDefinitions : List BadgeDef :=
  [⟨"first_workout", 25, fun d => decide (1 ≤ d.stats.totalWorkouts)⟩,
   ⟨"workout_10", 100, fun d => decide (10 ≤ d.stats.totalWorkouts)⟩,
   ⟨"workout_50", 300, fun d => decide (50 ≤ d.stats.totalWorkouts)⟩,
   ⟨"workout_100", 500, fun d => decide (100 ≤ d.stats.totalWorkouts)⟩,
   ⟨"streak_7", 100, fun d => decide (7 ≤ d.streak.longest)⟩,
   ⟨"streak_30", 500, fun d => decide (30 ≤ d.streak.longest)⟩,
   ⟨"streak_100", 1000, fun d => decide (100 ≤ d.streak.longest)⟩,
   ⟨"challenge_5", 75, fun d => decide (5 ≤ d.challenges.completed)⟩,
   ⟨"challenge_25", 300, fun d => decide (25 ≤ d.challenges.completed)⟩,
   ⟨"level_10", 200, fun d => decide (10 ≤ d.level)⟩,
   ⟨"level_25", 400, fun d => decide (25 ≤ d.level)⟩,
   ⟨"level_50", 1000, fun d => decide (50 ≤ d.level)⟩,
   ⟨"steps_100k", 150, fun d => decide (100000 ≤ d.stats.totalSteps)⟩,
   ⟨"steps_1m", 500, fun d => decide (1000000 ≤ d.stats.totalSteps)⟩,
   ⟨"calories_10k", 150, fun d => decide (10000 ≤ d.stats.totalCalories)⟩,
   ⟨"calories_100k", 500, fun d => decide (100000 ≤ d.stats.totalCalories)⟩]

/-- Result record of a method call: the manager's `this.data` afterwards, the
returned value, and the ordered list of localStorage keys written by the
`localStorage.setItem` calls it performed. -/
structure MOut (ρ : Type) where
  data : GamificationData
  ret : ρ
  writes : List String

/-- The body of the `checkBadges` loop for one badge: skip it when already in
`data.badges`; otherwise, when its condition holds, push the id, add the
badge XP, recompute the level, and log to history.  The accumulator carries
`this.data` and the ids awarded so far in this call. -/
def checkBadgesStep (now : String) (acc : GamificationData × List String)
    (b : BadgeDef) : GamificationData × List String :=
  let d := acc.1
  if d.badges.contains b.id then acc
  else if b.condition d then
    ({ d with
        badges := d.badges ++ [b.id]
        xp := d.xp + b.xp
        level := calculateLevel (d.xp + b.xp)
        history := d.history ++ [.badgeAward b.id b.xp now] },
     acc.2 ++ [b.id])
  else acc

/-- `checkBadges()` from gamification.js; returns the newly awarded badge
ids and saves exactly when at least one badge was awarded. -/
def checkBadges (d : GamificationData) (now : String) : MOut (List String) :=
  let p := badgeDefinitions.foldl (checkBadgesStep now) (d, [])
  { data := p.1, ret := p.2
    writes := if p.2 = [] then [] else [storageKey] }

/-- The object returned by `awardXP`. -/
structure AwardResult where
  xpAwarded : Nat
  totalXP : Nat
  level : Nat
  leveledUp : Bool
  newTitle : Option String
deriving DecidableEq, Repr

/-- `awardXP(amount, source)` from gamification.js.  `onLevelUp` only
dispatches a DOM event and changes no state.  The returned `totalXP` and
`level` read `this.data` after `checkBadges` may have added badge XP;
`leveledUp` compares the pre-badge level with the level before the call. -/
def awardXP (d : GamificationData) (amount : Nat) (source now : String) :
    MOut AwardResult :=
  let previousLevel := d.level
  let xp1 := d.xp + amount
  let level1 := calculateLevel xp1
  let d1 : GamificationData :=
    { d with
        xp := xp1
        level := level1
        history := d.history ++ [.xpGain amount source now] }
  let leveledUp : Bool := decide (previousLevel < level1)
  let cb := checkBadges d1 now
  { data := cb.data
    ret :=
      { xpAwarded := amount
        totalXP := cb.data.xp
        level := cb.data.level
        leveledUp := leveledUp
        newTitle := if leveledUp then some (getLevelTitle cb.data.level)
                    else none }
    writes := cb.writes ++ [storageKey] }

/-- `calculateStreakBonus(days)` from gamification.js. -/
def calculateStreakBonus (days : Nat) : Nat :=
  if days = 7 then 100
  else if days = 14 then 200
  else if days = 30 then 500
  else if days = 100 then 1000
  else if days % 7 = 0 then 50
  else 0

/-- The two shapes of object `updateStreak` returns. -/
inductive StreakResult where
  | noUpdate (current : Nat)
  | updated (current longest bonus : Nat)
deriving DecidableEq, Repr

/-- `updateStreak()` from gamification.js.  `today` is the current day index
(`now.toDateString()`); `yesterday` is `today - 1`.  When activity was
already logged today the method returns without touching anything;
otherwise the current streak is incremented (last activity yesterday) or
reset to 1, the longest streak is raised, possibly a streak bonus is
awarded through `awardXP`, `checkBadges` runs, and the data is saved. -/
def updateStreak (d : GamificationData) (today : Nat) (now : String) :
    MOut StreakResult :=
  if d.streak.lastActivity = some today then
    { data := d, ret := .noUpdate d.streak.current, writes := [] }
  else
    let yesterday := today - 1
    let cur :=
      if d.streak.lastActivity = some yesterday then d.streak.current + 1
      else 1
    let longest := if d.streak.longest < cur then cur else d.streak.longest
    let d1 : GamificationData :=
      { d with streak :=
          { current := cur, longest := longest, lastActivity := some today } }
    let streakBonus := calculateStreakBonus cur
    let afterBonus : GamificationData × List String :=
      if 0 < streakBonus then
        let a := awardXP d1 streakBonus "streak_bonus" now
        (a.data, a.writes)
      else (d1, [])
    let cb := checkBadges afterBonus.1 now
    { data := cb.data
      ret := .updated cb.data.streak.current cb.data.streak.longest streakBonus
      writes := afterBonus.2 ++ cb.writes ++ [storageKey] }

/-- The `workout` argument of `logWorkout` (`duration`, `calories`, `type`;
absent JS fields enter the arithmetic as 0 via `|| 0` and fail the `>=`
bonus guards, exactly as the value 0 does). -/
structure Workout where
  duration : Nat
  calories : Nat
  type : String
deriving DecidableEq, Repr

/-- `logWorkout(workout)` from gamification.js. -/
def logWorkout (d : GamificationData) (w : Workout) (today : Nat)
    (now : String) : MOut (AwardResult × StreakResult) :=
  let stats1 : GamStats :=
    { d.stats with
        totalWorkouts := d.stats.totalWorkouts + 1
        totalMinutes := d.stats.totalMinutes + w.duration
        totalCalories := d.stats.totalCalories + w.calories }
  let d1 : GamificationData := { d with stats := stats1 }
  let xpEarned := 50
    + (if 30 ≤ w.duration then 25 else 0)
    + (if 60 ≤ w.duration then 25 else 0)
    + (if 200 ≤ w.calories then 15 else 0)
    + (if 400 ≤ w.calories then 25 else 0)
  let source := "workout_" ++ (if w.type = "" then "general" else w.type)
  let a := awardXP d1 xpEarned source now
  let s := updateStreak a.data today now
  { data := s.data, ret := (a.ret, s.ret), writes := a.writes ++ s.writes }

/-- The two shapes of object `logSteps` returns: the `awardXP` result, or
the bare `\x7b xpAwarded: 0 \x7d` object. -/
inductive StepsResult where
  | awarded (r : AwardResult)
  | zero
deriving DecidableEq, Repr

/-- `logSteps(steps)` from gamification.js: 1 XP per 100 steps. -/
def logSteps (d : GamificationData) (steps : Nat) (now : String) :
    MOut StepsResult :=
  let d1 : GamificationData :=
    { d with stats := { d.stats with totalSteps := d.stats.totalSteps + steps } }
  let xpEarned := steps / 100
  if 0 < xpEarned then
    let a := awardXP d1 xpEarned "steps" now
    { data := a.data, ret := .awarded a.ret, writes := a.writes }
  else
    { data := d1, ret := .zero, writes := [storageKey] }

/-- The `challenge` argument of `completeChallenge` (`id`, `xp`, `type`). -/
structure Challenge where
  id : Nat
  xp : Nat
  type : String
deriving DecidableEq, Repr

/-- `completeChallenge(challenge)` from gamification.js. -/
def completeChallenge (d : GamificationData) (c : Challenge) (now : String) :
    MOut AwardResult :=
  let d1 : GamificationData :=
    { d with challenges :=
        { completed := d.challenges.completed + 1
          active := d.challenges.active.filter (fun a => a.id ≠ c.id) } }
  let a := awardXP d1 c.xp ("challenge_" ++ c.type) now
  { data := a.data, ret := a.ret, writes := a.writes }

/-- `joinChallenge(challenge)` from gamification.js. -/
def joinChallenge (d : GamificationData) (cid : Nat) (now : String) :
    MOut Bool :=
  if (d.challenges.active.find? (fun a => a.id = cid)).isNone then
    let d1 : GamificationData :=
      { d with challenges :=
          { d.challenges with active := d.challenges.active ++
              [{ id := cid, joinedAt := now, progress := 0 }] } }
    { data := d1, ret := true, writes := [storageKey] }
  else
    { data := d, ret := false, writes := [] }

/-- `reset()` from gamification.js. -/
def reset (_d : GamificationData) : MOut Unit :=
  { data := getDefaultData, ret := (), writes := [storageKey] }

end GamificationManager

/-! ## Activity tracker (js/activityTracker.js)

The `days` object (keyed by `YYYY-MM-DD` date strings) is modelled as an
association list with unique keys; date keys and ISO timestamps are passed in
by the caller.  Methods that call into `window.Gamification` take the
gamification manager's data as an extra input and return it updated; the
localStorage keys they write are split into the keys written by the
tracker's own `save()` calls and the keys written inside the delegated
gamification method. -/

/-- One recorded activity session (the objects pushed onto
`day.activities` by `logActivity`). -/
structure ActivitySession where
  type : String
  duration : Nat
  calories : Nat
  steps : Nat
  notes : String
  timestamp : String
deriving DecidableEq, Repr

structure DayEntry where
  steps : Nat
  calories : Nat
  activeMinutes : Nat
  water : Nat
  weight : Option Nat
  activities : List ActivitySession
  lastUpdated : Option String
deriving DecidableEq, Repr

structure Goals where
  steps : Nat
  calories : Nat
  activeMinutes : Nat
  water : Nat
deriving DecidableEq, Repr

structure ActivityData where
  days : List (String × DayEntry)
  goals : Goals
  trackingEnabled : Bool
deriving DecidableEq, Repr

namespace ActivityTrackerManager

/-- `this.storageKey` of ActivityTrackerManager. -/
def storageKey : String := "GamifyFit_activity"

/-- `getDefaultGoals()` from activityTracker.js. -/
def getDefaultGoals : Goals :=
  { steps := 10000, calories := 600, activeMinutes := 60, water := 8 }

/-- The fresh day entry `getDay` creates for an unseen date key. -/
def emptyDay : DayEntry :=
  { steps := 0, calories := 0, activeMinutes := 0, water := 0,
    weight := none, activities := [], lastUpdated := none }

/-- `getDay(dateKey)` from activityTracker.js: return the entry, creating it
(in `this.data.days`) when missing. -/
def getDay (a : ActivityData) (dateKey : String) : ActivityData × DayEntry :=
  match a.days.lookup dateKey with
  | some e => (a, e)
  | none => ({ a with days := a.days ++ [(dateKey, emptyDay)] }, emptyDay)

/-- Write back the (in JS, mutated in place) entry for an existing key. -/
def putDay (a : ActivityData) (dateKey : String) (e : DayEntry) :
    ActivityData :=
  { a with days := a.days.map (fun p => if p.1 = dateKey then (dateKey, e) else p) }

/-- `days[key] = entry` on a key that may or may not exist yet
(used by `seedDemoData`). -/
def assignDay (a : ActivityData) (dateKey : String) (e : DayEntry) :
    ActivityData :=
  if a.days.any (fun p => p.1 = dateKey) then putDay a dateKey e
  else { a with days := a.days ++ [(dateKey, e)] }

/-- Result record of a tracker method: tracker data, gamification data (for
the methods that delegate, else unchanged), return value, the keys written
by the tracker's own `save()` calls, and the keys written inside the
delegated `window.Gamification` call. -/
structure AOut (ρ : Type) where
  act : ActivityData
  gam : GamificationData
  ret : ρ
  actWrites : List String
  gamWrites : List String

/-- `enableTracking()` from activityTracker.js. -/
def enableTracking (a : ActivityData) (g : GamificationData) : AOut Unit :=
  { act := { a with trackingEnabled := true }, gam := g, ret := ()
    actWrites := [storageKey], gamWrites := [] }

/-- `logSteps(count)` from activityTracker.js: add to today's total, save,
then award XP through `window.Gamification.logSteps`. -/
def logSteps (a : ActivityData) (g : GamificationData) (count : Nat)
    (todayKey now : String) : AOut DayEntry :=
  let p := getDay a todayKey
  let day : DayEntry :=
    { p.2 with steps := p.2.steps + count, lastUpdated := some now }
  let a1 := putDay p.1 todayKey day
  let gOut := GamificationManager.logSteps g count now
  { act := a1, gam := gOut.data, ret := day
    actWrites := [storageKey], gamWrites := gOut.writes }

/-- `logCalories(amount)` from activityTracker.js. -/
def logCalories (a : ActivityData) (g : GamificationData) (amount : Nat)
    (todayKey now : String) : AOut DayEntry :=
  let p := getDay a todayKey
  let day : DayEntry :=
    { p.2 with calories := p.2.calories + amount, lastUpdated := some now }
  let a1 := putDay p.1 todayKey day
  { act := a1, gam := g, ret := day
    actWrites := [storageKey], gamWrites := [] }

/-- `logActiveMinutes(minutes)` from activityTracker.js. -/
def logActiveMinutes (a : ActivityData) (g : GamificationData) (minutes : Nat)
    (todayKey now : String) : AOut DayEntry :=
  let p := getDay a todayKey
  let day : DayEntry :=
    { p.2 with activeMinutes := p.2.activeMinutes + minutes,
               lastUpdated := some now }
  let a1 := putDay p.1 todayKey day
  { act := a1, gam := g, ret := day
    actWrites := [storageKey], gamWrites := [] }

/-- `logWater(glasses)` from activityTracker.js. -/
def logWater (a : ActivityData) (g : GamificationData) (glasses : Nat)
    (todayKey now : String) : AOut DayEntry :=
  let p := getDay a todayKey
  let day : DayEntry :=
    { p.2 with water := p.2.water + glasses, lastUpdated := some now }
  let a1 := putDay p.1 todayKey day
  { act := a1, gam := g, ret := day
    actWrites := [storageKey], gamWrites := [] }

/-- The `activityData` argument of `logActivity`. -/
structure ActivityInput where
  type : String
  duration : Nat
  calories : Nat
  steps : Nat
  notes : String
deriving DecidableEq, Repr

/-- `logActivity(activityData)` from activityTracker.js: add to the daily
totals, record the session, save, then `window.Gamification.logWorkout`.
As in `logWorkout`, a falsy `type` (empty string / absent) becomes
`general`. -/
def logActivity (a : ActivityData) (g : GamificationData) (w : ActivityInput)
    (todayKey now : String) (today : Nat) : AOut DayEntry :=
  let p := getDay a todayKey
  let day : DayEntry :=
    { p.2 with
        steps := p.2.steps + w.steps
        calories := p.2.calories + w.calories
        activeMinutes := p.2.activeMinutes + w.duration
        activities := p.2.activities ++
          [{ type := if w.type = "" then "general" else w.type
             duration := w.duration, calories := w.calories
             steps := w.steps, notes := w.notes, timestamp := now }]
        lastUpdated := some now }
  let a1 := putDay p.1 todayKey day
  let gOut := GamificationManager.logWorkout g
    { duration := w.duration, calories := w.calories,
      type := if w.type = "" then "general" else w.type } today now
  { act := a1, gam := gOut.data, ret := day
    actWrites := [storageKey], gamWrites := gOut.writes }

/-- `logWeight(kg)` from activityTracker.js. -/
def logWeight (a : ActivityData) (g : GamificationData) (kg : Nat)
    (todayKey now : String) : AOut DayEntry :=
  let p := getDay a todayKey
  let day : DayEntry := { p.2 with weight := some kg, lastUpdated := some now }
  let a1 := putDay p.1 todayKey day
  { act := a1, gam := g, ret := day
    actWrites := [storageKey], gamWrites := [] }

/-- The argument of `setGoals` (a partial goals object; absent fields keep
the current value, as the JS spread does). -/
structure GoalsPatch where
  steps : Option Nat
  calories : Option Nat
  activeMinutes : Option Nat
  water : Option Nat
deriving DecidableEq, Repr

/-- `setGoals(goals)` from activityTracker.js. -/
def setGoals (a : ActivityData) (g : GamificationData) (patch : GoalsPatch) :
    AOut Unit :=
  let goals1 : Goals :=
    { steps := patch.steps.getD a.goals.steps
      calories := patch.calories.getD a.goals.calories
      activeMinutes := patch.activeMinutes.getD a.goals.activeMinutes
      water := patch.water.getD a.goals.water }
  { act := { a with goals := goals1 }, gam := g, ret := ()
    actWrites := [storageKey], gamWrites := [] }

/-- `resetToday()` from activityTracker.js. -/
def resetToday (a : ActivityData) (g : GamificationData) (todayKey : String) :
    AOut Unit :=
  { act := { a with days := a.days.filter (fun p => p.1 ≠ todayKey) }
    gam := g, ret := ()
    actWrites := [storageKey], gamWrites := [] }

/-- One iteration's random draws in `seedDemoData`, already floored into the
ranges the source produces. -/
structure DemoDraw where
  steps : Nat
  calories : Nat
  activeMinutes : Nat
  water : Nat
deriving DecidableEq, Repr

/-- `seedDemoData()` from activityTracker.js: for `i = 6` down to `0` assign
a random-looking entry under the date key of `i` days ago, then enable
tracking and save.  `dayKey i`/`iso i` give the date key and ISO timestamp
of `i` days ago; `draw i` gives that iteration's random values. -/
def seedDemoData (a : ActivityData) (g : GamificationData)
    (dayKey iso : Nat → String) (draw : Nat → DemoDraw) : AOut Unit :=
  let a1 := (List.range 7).foldl
    (fun acc j =>
      let i := 6 - j
      assignDay acc (dayKey i)
        { steps := 5000 + (draw i).steps
          calories := 200 + (draw i).calories
          activeMinutes := 15 + (draw i).activeMinutes
          water := 3 + (draw i).water
          weight := none
          activities := []
          lastUpdated := some (iso i) }) a
  { act := { a1 with trackingEnabled := true }, gam := g, ret := ()
    actWrites := [storageKey], gamWrites := [] }

end ActivityTrackerManager

/-! ## Workout plan generator (js/planGenerator.js)

`Math.random`-driven shuffling (`sort(() => Math.random() - 0.5)`) is
modelled by an oracle `shuffle : List Exercise → List Exercise`; a JS array
sort always returns a rearrangement of its input, which the theorems take as
the hypothesis `∀ l x, x ∈ shuffle l → x ∈ l`. -/

/-- One entry of the exercise database. -/
structure Exercise where
  name : String
  muscle : String
  difficulty : Nat
  equipment : String
  tips : String
deriving DecidableEq, Repr

namespace PlanGenerator

/-- `getExerciseDatabase()` from planGenerator.js, as a lookup from category
name to exercise list (`none` for a category that is not a key, modelling
`this.exerciseDatabase[group]` being `undefined`). -/
def exerciseDatabase (group : String) : Option (List Exercise) :=
  if group = "chest" then some
    [⟨"Push-Ups", "Chest", 1, "none", "Keep your body straight. Lower until chest nearly touches floor."⟩,
     ⟨"Incline Push-Ups", "Upper Chest", 1, "none", "Place hands on elevated surface. Great for beginners."⟩,
     ⟨"Diamond Push-Ups", "Chest, Triceps", 2, "none", "Form a diamond with your hands. Keep elbows close."⟩,
     ⟨"Bench Press", "Chest", 2, "barbell", "Keep feet flat, slight arch in lower back."⟩,
     ⟨"Dumbbell Press", "Chest", 2, "dumbbells", "Press straight up, control the negative."⟩,
     ⟨"Incline Dumbbell Press", "Upper Chest", 2, "dumbbells", "Set bench to 30-45 degrees."⟩,
     ⟨"Dumbbell Flyes", "Chest", 2, "dumbbells", "Keep slight bend in elbows throughout."⟩,
     ⟨"Cable Crossover", "Chest", 3, "cable", "Squeeze at the center for peak contraction."⟩]
  else if group = "back" then some
    [⟨"Pull-Ups", "Lats, Biceps", 3, "pullup_bar", "Pull chest to bar, squeeze shoulder blades."⟩,
     ⟨"Chin-Ups", "Lats, Biceps", 2, "pullup_bar", "Underhand grip, focus on biceps engagement."⟩,
     ⟨"Inverted Rows", "Back", 1, "none", "Keep body straight, pull chest to bar."⟩,
     ⟨"Bent Over Rows", "Back", 2, "barbell", "Hinge at hips, pull to lower chest."⟩,
     ⟨"Dumbbell Rows", "Back", 2, "dumbbells", "Keep back flat, pull elbow past torso."⟩,
     ⟨"Lat Pulldown", "Lats", 2, "cable", "Pull to upper chest, control the return."⟩,
     ⟨"Deadlift", "Back, Hamstrings", 3, "barbell", "Keep back flat, push through heels."⟩,
     ⟨"Face Pulls", "Rear Delts", 1, "cable", "Pull rope to face, externally rotate."⟩]
  else if group = "shoulders" then some
    [⟨"Pike Push-Ups", "Shoulders", 2, "none", "Form inverted V, lower head toward floor."⟩,
     ⟨"Overhead Press", "Shoulders", 2, "barbell", "Brace core, press straight up."⟩,
     ⟨"Dumbbell Shoulder Press", "Shoulders", 2, "dumbbells", "Press up and slightly in."⟩,
     ⟨"Lateral Raises", "Side Delts", 1, "dumbbells", "Lead with elbows, slight bend in arms."⟩,
     ⟨"Front Raises", "Front Delts", 1, "dumbbells", "Alternate arms, control the movement."⟩,
     ⟨"Arnold Press", "Shoulders", 2, "dumbbells", "Rotate palms as you press."⟩,
     ⟨"Reverse Flyes", "Rear Delts", 1, "dumbbells", "Bend over, squeeze shoulder blades."⟩]
  else if group = "arms" then some
    [⟨"Bicep Curls", "Biceps", 1, "dumbbells", "Keep elbows pinned, control negative."⟩,
     ⟨"Hammer Curls", "Biceps, Forearms", 1, "dumbbells", "Neutral grip, curl to shoulder."⟩,
     ⟨"Tricep Dips", "Triceps", 2, "none", "Keep elbows close, lower 90 degrees."⟩,
     ⟨"Tricep Pushdowns", "Triceps", 1, "cable", "Pin elbows, fully extend."⟩,
     ⟨"Skull Crushers", "Triceps", 2, "barbell", "Lower to forehead, keep elbows in."⟩,
     ⟨"Concentration Curls", "Biceps", 1, "dumbbells", "Isolate bicep, slow controlled reps."⟩,
     ⟨"Close Grip Bench Press", "Triceps", 2, "barbell", "Hands shoulder-width, elbows tucked."⟩]
  else if group = "legs" then some
    [⟨"Bodyweight Squats", "Quads, Glutes", 1, "none", "Chest up, knees track over toes."⟩,
     ⟨"Lunges", "Quads, Glutes", 1, "none", "Step forward, lower back knee."⟩,
     ⟨"Barbell Squats", "Quads, Glutes", 2, "barbell", "Break at hips first, drive through heels."⟩,
     ⟨"Front Squats", "Quads", 3, "barbell", "Keep elbows high, torso upright."⟩,
     ⟨"Romanian Deadlifts", "Hamstrings, Glutes", 2, "barbell", "Hinge at hips, slight knee bend."⟩,
     ⟨"Leg Press", "Quads", 2, "machine", "Feet shoulder-width, dont lock knees."⟩,
     ⟨"Leg Curls", "Hamstrings", 1, "machine", "Control the negative, squeeze at top."⟩,
     ⟨"Leg Extensions", "Quads", 1, "machine", "Full extension, pause at top."⟩,
     ⟨"Calf Raises", "Calves", 1, "none", "Full range of motion, squeeze at top."⟩,
     ⟨"Bulgarian Split Squats", "Quads, Glutes", 2, "none", "Rear foot elevated, stay balanced."⟩,
     ⟨"Hip Thrusts", "Glutes", 2, "barbell", "Drive through heels, squeeze glutes."⟩]
  else if group = "core" then some
    [⟨"Plank", "Core", 1, "none", "Straight line from head to heels."⟩,
     ⟨"Crunches", "Abs", 1, "none", "Curl shoulders off floor, dont pull neck."⟩,
     ⟨"Leg Raises", "Lower Abs", 2, "none", "Keep lower back pressed to floor."⟩,
     ⟨"Russian Twists", "Obliques", 2, "none", "Rotate torso, keep feet elevated."⟩,
     ⟨"Mountain Climbers", "Core", 2, "none", "Drive knees to chest, maintain plank."⟩,
     ⟨"Dead Bug", "Core", 1, "none", "Keep lower back pressed down."⟩,
     ⟨"Bicycle Crunches", "Abs, Obliques", 2, "none", "Opposite elbow to knee, control tempo."⟩,
     ⟨"Hanging Leg Raises", "Lower Abs", 3, "pullup_bar", "Control the swing, lift with abs."⟩]
  else if group = "cardio" then some
    [⟨"Jumping Jacks", "Full Body", 1, "none", "Stay light on feet, coordinate arms."⟩,
     ⟨"High Knees", "Cardio", 1, "none", "Drive knees up, pump arms."⟩,
     ⟨"Burpees", "Full Body", 3, "none", "Explosive jump, soft landing."⟩,
     ⟨"Box Jumps", "Legs", 2, "box", "Land softly, step down."⟩,
     ⟨"Jump Rope", "Cardio", 2, "rope", "Stay on balls of feet, small jumps."⟩,
     ⟨"Running", "Cardio", 2, "none", "Maintain steady pace, controlled breathing."⟩,
     ⟨"Cycling", "Legs, Cardio", 2, "bike", "Keep cadence steady, adjust resistance."⟩]
  else none

/-- The `userProfile` argument of `generatePlan`, with the destructuring
defaults already applied (`beginner` / `general` / `4` / `[none]` / `45`
for absent fields). -/
structure UserProfile where
  fitnessLevel : String
  goal : String
  daysPerWeek : Nat
  equipment : List String
  duration : Nat
deriving DecidableEq, Repr

/-- `getWorkoutSplit(days, goal)` from planGenerator.js:
`splits[days]?.[goal] || splits[4].general`. -/
def getWorkoutSplit (days : Nat) (goal : String) : List String :=
  let entry : Option (List String) :=
    if days = 3 then
      if goal = "general" then
        some ["full", "rest", "full", "rest", "full", "rest", "rest"]
      else if goal = "build_muscle" then
        some ["push", "rest", "pull", "rest", "legs", "rest", "rest"]
      else if goal = "lose_weight" then
        some ["hiit", "rest", "full", "rest", "cardio", "rest", "rest"]
      else none
    else if days = 4 then
      if goal = "general" then
        some ["upper", "lower", "rest", "push", "pull", "rest", "rest"]
      else if goal = "build_muscle" then
        some ["chest", "back", "rest", "shoulders", "legs", "rest", "rest"]
      else if goal = "lose_weight" then
        some ["hiit", "lower", "rest", "upper", "cardio", "rest", "rest"]
      else none
    else if days = 5 then
      if goal = "general" then
        some ["push", "pull", "legs", "rest", "upper", "lower", "rest"]
      else if goal = "build_muscle" then
        some ["chest", "back", "legs", "rest", "shoulders", "arms", "rest"]
      else if goal = "lose_weight" then
        some ["hiit", "lower", "cardio", "rest", "upper", "hiit", "rest"]
      else none
    else if days = 6 then
      if goal = "general" then
        some ["push", "pull", "legs", "push", "pull", "legs", "rest"]
      else if goal = "build_muscle" then
        some ["chest", "back", "legs", "shoulders", "arms", "full", "rest"]
      else if goal = "lose_weight" then
        some ["hiit", "upper", "cardio", "lower", "hiit", "cardio", "rest"]
      else none
    else none
  entry.getD ["upper", "lower", "rest", "push", "pull", "rest", "rest"]

/-- `getWorkoutTypeName(type)` from planGenerator.js. -/
def getWorkoutTypeName (type : String) : String :=
  if type = "full" then "Full Body"
  else if type = "upper" then "Upper Body"
  else if type = "lower" then "Lower Body"
  else if type = "push" then "Push Day"
  else if type = "pull" then "Pull Day"
  else if type = "legs" then "Leg Day"
  else if type = "chest" then "Chest Focus"
  else if type = "back" then "Back Focus"
  else if type = "shoulders" then "Shoulder Day"
  else if type = "arms" then "Arm Day"
  else if type = "hiit" then "HIIT Training"
  else if type = "cardio" then "Cardio Session"
  else "Workout"

/-- `getMuscleGroups(workoutType)` from planGenerator.js. -/
def getMuscleGroups (workoutType : String) : List String :=
  if workoutType = "full" then ["chest", "back", "legs", "core"]
  else if workoutType = "upper" then ["chest", "back", "shoulders", "arms"]
  else if workoutType = "lower" then ["legs", "core"]
  else if workoutType = "push" then ["chest", "shoulders", "arms"]
  else if workoutType = "pull" then ["back", "arms"]
  else if workoutType = "legs" then ["legs", "core"]
  else if workoutType = "chest" then ["chest", "shoulders"]
  else if workoutType = "back" then ["back"]
  else if workoutType = "shoulders" then ["shoulders", "arms"]
  else if workoutType = "arms" then ["arms"]
  else if workoutType = "hiit" then ["cardio", "core"]
  else if workoutType = "cardio" then ["cardio"]
  else ["full"]

/-- The `maxDifficulty` ternary at the head of `selectExercises`. -/
def maxDifficultyFor (fitnessLevel : String) : Nat :=
  if fitnessLevel = "beginner" then 1
  else if fitnessLevel = "intermediate" then 2
  else 3

/-- One set of an exercise as planned. -/
structure SetEntry where
  reps : Nat
  weight : Nat
  unit : String
deriving DecidableEq, Repr

/-- An exercise as placed into a plan by `createExerciseWithSets`. -/
structure PlanExercise where
  name : String
  muscle : String
  sets : List SetEntry
  rest : Nat
  tips : String
  completed : Bool
deriving DecidableEq, Repr

/-- The `setsConfig` rows of `createExerciseWithSets` (sets count, reps per
set, rest seconds); unknown levels use the intermediate row. -/
def setsConfigFor (fitnessLevel : String) : Nat × List Nat × Nat :=
  if fitnessLevel = "beginner" then (3, [12, 10, 10], 60)
  else if fitnessLevel = "advanced" then (4, [10, 8, 6, 6], 90)
  else (4, [12, 10, 8, 8], 75)

/-- `createExerciseWithSets(exercise, fitnessLevel)` from planGenerator.js.
`config.reps[i] || last` never falls through for the table rows above, but
is kept as in the source. -/
def createExerciseWithSets (ex : Exercise) (fitnessLevel : String) :
    PlanExercise :=
  let config := setsConfigFor fitnessLevel
  let sets := (List.range config.1).map (fun i =>
    { reps := config.2.1.getD i (config.2.1.getLastD 0)
      weight := 0
      unit := if ex.equipment = "none" then "bodyweight" else "kg" })
  { name := ex.name, muscle := ex.muscle, sets := sets,
    rest := config.2.2, tips := ex.tips, completed := false }

/-- `selectExercises(workoutType, fitnessLevel, equipment, duration)` from
planGenerator.js, with the shuffle oracle standing in for
`sort(() => Math.random() - 0.5)`. -/
def selectExercises (workoutType fitnessLevel : String)
    (equipment : List String) (duration : Nat)
    (shuffle : List Exercise → List Exercise) : List PlanExercise :=
  let maxDifficulty := maxDifficultyFor fitnessLevel
  let muscleGroups := getMuscleGroups workoutType
  let exercisesPerGroup := duration * 2 / 45
  let totalExercises := min (muscleGroups.length * exercisesPerGroup) 8
  let selectedExercises := muscleGroups.foldl
    (fun acc group =>
      let availableExercises := ((exerciseDatabase group).getD []).filter
        (fun ex => decide (ex.difficulty ≤ maxDifficulty) &&
          (equipment.contains "none" || equipment.contains ex.equipment))
      let selected := (shuffle availableExercises).take exercisesPerGroup
      acc ++ selected.map (fun e => createExerciseWithSets e fitnessLevel))
    []
  selectedExercises.take totalExercises

/-- `calculateWorkoutXP(exercises)` from planGenerator.js. -/
def calculateWorkoutXP (exercises : List PlanExercise) : Nat :=
  50 + exercises.length * 5

/-- One day of the weekly plan.  A rest day object in the source has no
`exercises` field; it is modelled with an empty list. -/
structure PlanDay where
  name : String
  date : Nat
  type : String
  isRest : Bool
  totalXp : Nat
  completed : Bool
  exercises : List PlanExercise
deriving DecidableEq, Repr

/-- The `dayNames` array of `generatePlan`. -/
def dayNames : List String := ["Mon", "Tue", "Wed", "Thu", "Fri", "Sat", "Sun"]

/-- The body of the `split.forEach` loop of `generatePlan`: build the day
for index `i` and workout type `workoutType`. -/
def planDay (p : UserProfile) (shuffle : List Exercise → List Exercise)
    (i : Nat) (workoutType : String) : PlanDay :=
  if workoutType = "rest" then
    { name := dayNames.getD i "", date := i + 1, type := "Rest Day",
      isRest := true, totalXp := 20, completed := false, exercises := [] }
  else
    let exercises :=
      selectExercises workoutType p.fitnessLevel p.equipment p.duration shuffle
    { name := dayNames.getD i "", date := i + 1,
      type := getWorkoutTypeName workoutType, isRest := false,
      totalXp := calculateWorkoutXP exercises, completed := false,
      exercises := exercises }

/-- The plan object returned by `generatePlan`. -/
structure Plan where
  weekNumber : Nat
  goal : String
  fitnessLevel : String
  days : List PlanDay
deriving DecidableEq, Repr

/-- `generatePlan(userProfile)` from planGenerator.js. -/
def generatePlan (p : UserProfile)
    (shuffle : List Exercise → List Exercise) : Plan :=
  let split := getWorkoutSplit p.daysPerWeek p.goal
  { weekNumber := 1, goal := p.goal, fitnessLevel := p.fitnessLevel,
    days := split.enum.map (fun iw => planDay p shuffle iw.1 iw.2) }

end PlanGenerator

/-! ## OAuth callback handler (api/auth/callback)

The four awaited external operations inside the `try` block (token exchange
fetch, `tokenResponse.json()` / `.text()`, userinfo fetch, `userResponse.json()`,
JWT signing) are modelled by an environment of outcomes; any of them throwing
lands in the `catch` and redirects with `error=callback_failed`.
`encodeURIComponent` is an injected oracle (only applied to the provider's
`error` value). -/

namespace OAuthCallback

/-- `parseCookies(cookieHeader)` from the callback handler: split on `;`,
trim, split each cookie on `=`, keep pairs whose name and value are both
nonempty (JS truthiness); a later binding for the same name wins. -/
def parseCookies (cookieHeader : Option String) : List (String × String) :=
  match cookieHeader with
  | none => []
  | some h =>
    (strSplitOn h ';').foldl
      (fun acc c =>
        match strSplitOn (strTrim c) '=' with
        | name :: value :: _ =>
          if name ≠ "" ∧ value ≠ "" then acc ++ [(name, value)] else acc
        | _ => acc)
      []

/-- `cookies[name]` on the object `parseCookies` builds (last write wins). -/
def cookieGet (cookies : List (String × String)) (name : String) :
    Option String :=
  ((cookies.filter (fun p => p.1 = name)).getLast?).map (fun p => p.2)

/-- The request fields the handler reads. -/
structure CallbackRequest where
  code : Option String
  state : Option String
  error : Option String
  cookieHeader : Option String
deriving DecidableEq, Repr

/-- Outcomes of the awaited external operations.  `Except Unit Bool` models
a fetch that either throws (`Except.error`) or yields a response with the
given `ok` flag; the `Bool` flags model whether a body-reading or signing
step throws. -/
structure CallbackEnv where
  tokenFetch : Except Unit Bool
  tokenErrorTextThrows : Bool
  tokenJsonThrows : Bool
  userFetch : Except Unit Bool
  userJsonThrows : Bool
  signThrows : Bool
  sessionToken : String
  production : Bool
deriving Repr

/-- The handler's observable outcome: the 302 redirect target and the
`Set-Cookie` header values set on the response. -/
structure CallbackResponse where
  status : Nat
  redirect : String
  setCookies : List String
deriving DecidableEq, Repr

/-- The OAuth callback handler.  Every return path is a
`res.redirect(302, ...)`; the session and state-clearing cookies are set
only on the single success path. -/
def handler (req : CallbackRequest) (env : CallbackEnv)
    (enc : String → String) : CallbackResponse :=
  match req.error with
  | some e => { status := 302, redirect := "/auth.html?error=" ++ enc e,
                setCookies := [] }
  | none =>
    let cookies := parseCookies req.cookieHeader
    if req.state ≠ cookieGet cookies "oauth_state" then
      { status := 302, redirect := "/auth.html?error=invalid_state",
        setCookies := [] }
    else
      match env.tokenFetch with
      | .error _ =>
        { status := 302, redirect := "/auth.html?error=callback_failed",
          setCookies := [] }
      | .ok tokenOk =>
        if ¬ tokenOk then
          if env.tokenErrorTextThrows then
            { status := 302, redirect := "/auth.html?error=callback_failed",
              setCookies := [] }
          else
            { status := 302,
              redirect := "/auth.html?error=token_exchange_failed",
              setCookies := [] }
        else if env.tokenJsonThrows then
          { status := 302, redirect := "/auth.html?error=callback_failed",
            setCookies := [] }
        else
          match env.userFetch with
          | .error _ =>
            { status := 302, redirect := "/auth.html?error=callback_failed",
              setCookies := [] }
          | .ok userOk =>
            if ¬ userOk then
              { status := 302,
                redirect := "/auth.html?error=failed_to_get_user",
                setCookies := [] }
            else if env.userJsonThrows then
              { status := 302, redirect := "/auth.html?error=callback_failed",
                setCookies := [] }
            else if env.signThrows then
              { status := 302, redirect := "/auth.html?error=callback_failed",
                setCookies := [] }
            else
              { status := 302, redirect := "/onboarding.html",
                setCookies :=
                  ["session=" ++ env.sessionToken ++
                     "; Path=/; HttpOnly; SameSite=Lax; Max-Age=604800" ++
                     (if env.production then "; Secure" else ""),
                   "oauth_state=; Path=/; HttpOnly; Max-Age=0"] }

/-- The enumerated authentication-failure conditions of the claim: provider
error, state mismatch, failed/non-ok token exchange or body read, failed
userinfo fetch or body read, or a thrown signing step. -/
def authFails (req : CallbackRequest) (env : CallbackEnv) : Prop :=
  req.error ≠ none ∨
  req.state ≠ cookieGet (parseCookies req.cookieHeader) "oauth_state" ∨
  env.tokenFetch = .error () ∨ env.tokenFetch = .ok false ∨
  env.tokenJsonThrows = true ∨
  env.userFetch = .error () ∨ env.userFetch = .ok false ∨
  env.userJsonThrows = true ∨ env.signThrows = true

end OAuthCallback

/-! ## Predicates used by the claim statements -/

/-- Every key in the write list equals `k`. -/
def OnlyKey (k : String) (ws : List String) : Prop := ∀ x ∈ ws, x = k

/-- The level-XP consistency invariant of the gamification data. -/
def levelInvariant (d : GamificationData) : Prop :=
  d.level = GamificationManager.calculateLevel d.xp

/-- The current-streak value `updateStreak` computes when activity was not
yet logged today (the `cur` of its else branch). -/
def streakCur (d : GamificationData) (today : Nat) : Nat :=
  if d.streak.lastActivity = some (today - 1) then d.streak.current + 1 else 1

/-! # Theorems -/

/-! ## General helper lemmas -/

/-- A property preserved by every step of a fold holds of its result. -/
theorem foldl_preserves {α : Type _} {β : Type _} (P : α → Prop)
    (f : α → β → α) (hstep : ∀ a b, P a → P (f a b)) :
    ∀ (l : List β) (init : α), P init → P (l.foldl f init) := by
  intro l
  induction l with
  | nil => intro init h; exact h
  | cons x xs ih => intro init h; exact ih _ (hstep _ _ h)

/-- String concatenation begins with its first component. -/
theorem charListBeginsWith_append (l m : List Char) :
    charListBeginsWith (l ++ m) l = true := by
  induction l with
  | nil => cases m <;> rfl
  | cons c cs ih => simp [charListBeginsWith, ih]

/-- `strBeginsWith (s ++ t) s` always holds. -/
theorem strBeginsWith_append (s t : String) :
    strBeginsWith (s ++ t) s = true := by
  have : (s ++ t).data = s.data ++ t.data := rfl
  simp [strBeginsWith, this, charListBeginsWith_append]

/-! ## C1: the offline sync queue loops -/

/-- Net effect of a sync loop: starting from any store contents and
iterating over any snapshot, the loop removes exactly the records whose id
coincides with a snapshot item of the event's tag that got an ok response,
and touches nothing else. -/
theorem syncLoop_eq_filter (tag : String) (resp : QueueItem → SyncOutcome) :
    ∀ (queue store : List QueueItem),
      queue.foldl (syncStep tag resp) store =
      store.filter (fun it =>
        !(queue.any (fun q =>
            decide (q.action_type = tag) && respOk (resp q) &&
            decide (q.id = it.id)))) := by
  intro queue
  induction queue with
  | nil => intro store; simp
  | cons q qs ih =>
    intro store
    rw [List.foldl_cons, ih]
    by_cases hq : q.action_type = tag
    · rcases hresp : resp q with _ | code
      · have hstep : syncStep tag resp store q = store := by
          simp [syncStep, hq, hresp]
        rw [hstep]
        apply List.filter_congr
        intro it _
        simp [hresp, respOk]
      · by_cases hok : respOk (.status code) = true
        · have hstep : syncStep tag resp store q = deleteFromStore store q.id := by
            simp [syncStep, hq, hresp, hok]
          rw [hstep, deleteFromStore, List.filter_filter]
          apply List.filter_congr
          intro it _
          by_cases hid : q.id = it.id <;>
            simp [hq, hresp, hok, hid, eq_comm]
        · have hstep : syncStep tag resp store q = store := by
            simp [syncStep, hq, hresp]
            intro h
            exact absurd h hok
          rw [hstep]
          apply List.filter_congr
          intro it _
          simp [hq, hresp, Bool.eq_false_iff.mpr hok]
    · have hstep : syncStep tag resp store q = store := by
        simp [syncStep, hq]
      rw [hstep]
      apply List.filter_congr
      intro it _
      simp [hq]

/-- With unique record ids (IndexedDB `keyPath: id, autoIncrement`), a sync
pass keeps exactly the records that are not a hit for the tag. -/
theorem syncPass_eq_filter (tag : String) (resp : QueueItem → SyncOutcome)
    (store : List QueueItem) (hids : (store.map QueueItem.id).Nodup) :
    store.foldl (syncStep tag resp) store =
      store.filter (fun it =>
        !(decide (it.action_type = tag) && respOk (resp it))) := by
  rw [syncLoop_eq_filter]
  apply List.filter_congr
  intro it hit
  congr 1
  rw [Bool.eq_iff_iff]
  constructor
  · intro h
    rcases List.any_eq_true.mp h with ⟨q, hq, hpred⟩
    simp only [Bool.and_eq_true, decide_eq_true_eq] at hpred
    obtain ⟨⟨htag, hok⟩, hidq⟩ := hpred
    have hqit : q = it := List.inj_on_of_nodup_map hids hq hit hidq
    subst hqit
    simp [htag, hok]
  · intro h
    simp only [Bool.and_eq_true, decide_eq_true_eq] at h
    apply List.any_eq_true.mpr
    refine ⟨it, hit, ?_⟩
    simp [h.1, h.2]

/-- **C1.** For every item in the offline sync queue processed during a
background sync event (its `action_type` matches the event's tag), the item
is deleted iff the response is ok (2xx); on a network error or non-ok
response it stays in the queue unchanged — the loops keep non-hits verbatim,
there is no retry counter, limit, or backoff, so the whole store is
re-presented to the next sync pass. -/
theorem C1_sync_delete_iff_ok (store : List QueueItem)
    (resp : QueueItem → SyncOutcome)
    (hids : (store.map QueueItem.id).Nodup) :
    (syncChallengeCompletions store resp =
       store.filter (fun it =>
         !(decide (it.action_type = "challenge_complete") && respOk (resp it)))) ∧
    (syncActivityData store resp =
       store.filter (fun it =>
         !(decide (it.action_type = "activity_data") && respOk (resp it)))) ∧
    (∀ item ∈ store, item.action_type = "challenge_complete" →
       (item ∈ syncChallengeCompletions store resp ↔
         respOk (resp item) = false)) ∧
    (∀ item ∈ store, item.action_type = "activity_data" →
       (item ∈ syncActivityData store resp ↔ respOk (resp item) = false)) := by
  have e1 : syncChallengeCompletions store resp =
      store.filter (fun it =>
        !(decide (it.action_type = "challenge_complete") && respOk (resp it))) :=
    syncPass_eq_filter _ resp store hids
  have e2 : syncActivityData store resp =
      store.filter (fun it =>
        !(decide (it.action_type = "activity_data") && respOk (resp it))) :=
    syncPass_eq_filter _ resp store hids
  refine ⟨e1, e2, ?_, ?_⟩
  · intro item hmem hact
    rw [e1, List.mem_filter]
    cases hr : respOk (resp item) <;> simp [hact, hmem, hr]
  · intro item hmem hact
    rw [e2, List.mem_filter]
    cases hr : respOk (resp item) <;> simp [hact, hmem, hr]

/-- Witness for C1 at a concrete queue and response oracle: item 1 (ok 200)
is deleted, item 2 (network error) and item 4 (HTTP 500) remain. -/
theorem C1_witness :
    syncChallengeCompletions
        [⟨1, "challenge_complete", "a"⟩, ⟨2, "challenge_complete", "b"⟩,
         ⟨3, "activity_data", "c"⟩, ⟨4, "challenge_complete", "d"⟩]
        (fun q => if q.id = 1 then .status 200
                  else if q.id = 2 then .netError else .status 500) =
      [⟨2, "challenge_complete", "b"⟩, ⟨3, "activity_data", "c"⟩,
       ⟨4, "challenge_complete", "d"⟩] := by
  rw [(C1_sync_delete_iff_ok _ _ (by decide)).1]
  decide

/-! ## C2: offline fallbacks of the caching strategies -/

/-- **C2 counterexample.** An API request handled by the network-first
strategy whose fetch throws while nothing is cached resolves to the
synthesized 503 JSON response — neither a previously cached response for
the request nor the static `/offline.html` page.  The claim as stated is
therefore false. -/
theorem C2_counterexample :
    ¬ cachedOrOfflinePage "https://gamifyfit.app/api/challenges"
        (networkFirstWithCache (fun _ => false) .failure
          "https://gamifyfit.app/api/challenges") := by
  intro h
  rcases h with h | h <;> exact absurd h (by decide)

/-- **C2 (amended).** For a GET request whose network fetch throws: the
cache-first and navigation strategies resolve to a previously cached
response or the cached `/offline.html` page (assuming `/offline.html` is
precached, as `install` does); the network-first strategy resolves to a
previously cached response or the synthesized offline 503 JSON response;
stale-while-revalidate resolves to a previously cached response or to
`null`, its `/offline.html` alternative being unreachable behind the truthy
fetch promise. -/
theorem C2_offline_fallbacks (cache : String → Bool) (url : String)
    (hoff : cache "/offline.html" = true) :
    cachedOrOfflinePage url (cacheFirstWithNetwork cache .failure url) ∧
    cachedOrOfflinePage url (navigationHandler cache .failure url) ∧
    (networkFirstWithCache cache .failure url = some (.cached url) ∨
     networkFirstWithCache cache .failure url = some .offlineJson503) ∧
    (staleWhileRevalidate cache .failure url = some (.cached url) ∨
     staleWhileRevalidate cache .failure url = none) := by
  by_cases h : cache url = true <;>
    simp [cachedOrOfflinePage, cacheFirstWithNetwork, navigationHandler,
      networkFirstWithCache, staleWhileRevalidate, h, hoff]

/-- Witness for C2 (amended) at a concrete cache that holds exactly the
precached offline page. -/
theorem C2_witness :
    cachedOrOfflinePage "/dashboard.html"
      (cacheFirstWithNetwork (fun u => u == "/offline.html") .failure
        "/dashboard.html") ∧
    cachedOrOfflinePage "/dashboard.html"
      (navigationHandler (fun u => u == "/offline.html") .failure
        "/dashboard.html") ∧
    (networkFirstWithCache (fun u => u == "/offline.html") .failure
        "/dashboard.html" = some (.cached "/dashboard.html") ∨
     networkFirstWithCache (fun u => u == "/offline.html") .failure
        "/dashboard.html" = some .offlineJson503) ∧
    (staleWhileRevalidate (fun u => u == "/offline.html") .failure
        "/dashboard.html" = some (.cached "/dashboard.html") ∨
     staleWhileRevalidate (fun u => u == "/offline.html") .failure
        "/dashboard.html" = none) :=
  C2_offline_fallbacks (fun u => u == "/offline.html") "/dashboard.html"
    (by decide)

/-! ## C3: fetch routing -/

/-- **C3.** Every intercepted GET http(s) request is handled by exactly one
of the four strategies, chosen by the priority order API → static asset →
navigation mode → stale-while-revalidate, and non-GET or non-http requests
are not handled at all.  Each equation below characterizes one outcome of
the fetch listener. -/
theorem C3_fetch_routing (req : SWRequest) :
    (handleFetch req = some .networkFirst ↔
      req.method = "GET" ∧ strBeginsWith req.protocol "http" = true ∧
      isApiRequest req = true) ∧
    (handleFetch req = some .cacheFirst ↔
      req.method = "GET" ∧ strBeginsWith req.protocol "http" = true ∧
      isApiRequest req = false ∧ isStaticAsset req = true) ∧
    (handleFetch req = some .navigation ↔
      req.method = "GET" ∧ strBeginsWith req.protocol "http" = true ∧
      isApiRequest req = false ∧ isStaticAsset req = false ∧
      req.mode = "navigate") ∧
    (handleFetch req = some .staleWhileRevalidate ↔
      req.method = "GET" ∧ strBeginsWith req.protocol "http" = true ∧
      isApiRequest req = false ∧ isStaticAsset req = false ∧
      req.mode ≠ "navigate") ∧
    (handleFetch req = none ↔
      req.method ≠ "GET" ∨ strBeginsWith req.protocol "http" = false) := by
  unfold handleFetch
  split_ifs with h1 h2 h3 h4 h5 <;> simp_all

/-- Witness for C3: a GET request for the Google Fit API is routed to the
network-first strategy. -/
theorem C3_witness :
    handleFetch
      { method := "GET", protocol := "https:",
        href := "https://www.googleapis.com/fitness/v1/users",
        pathname := "/fitness/v1/users", mode := "cors" } =
      some .networkFirst :=
  (C3_fetch_routing _).1.mpr ⟨rfl, by decide, by decide⟩

/-! ## C4: awarding 150 XP from the default state -/

open GamificationManager in
/-- **C4.** From the default gamification state (0 XP, level 1; the level-2
threshold `levelThresholds[1]` is 100), `awardXP(150)` returns
`totalXP = 150`, `level = 2` and `leveledUp = true`.  (The source tag and
timestamp only enter the history log; they are fixed here so the whole call
evaluates.) -/
theorem C4_award_150_xp :
    levelThresholds.getD 1 0 = 100 ∧
    (awardXP getDefaultData 150 "onboarding" "2025-01-01T00:00:00.000Z").ret.totalXP
      = 150 ∧
    (awardXP getDefaultData 150 "onboarding" "2025-01-01T00:00:00.000Z").ret.level
      = 2 ∧
    (awardXP getDefaultData 150 "onboarding" "2025-01-01T00:00:00.000Z").ret.leveledUp
      = true := by
  refine ⟨by decide, by decide, by decide, by decide⟩

/-! ## Helper lemmas about the gamification operations

`badgeDefinitions` is sealed for the abstract lemmas below (their proofs
only ever fold over it generically), and unsealed again before the witness
theorems, which evaluate it on concrete data. -/

seal GamificationManager.badgeDefinitions

namespace GamificationManager

/-- One badge-check step never touches the streak. -/
theorem checkBadgesStep_streak (now : String)
    (acc : GamificationData × List String) (b : BadgeDef) :
    (checkBadgesStep now acc b).1.streak = acc.1.streak := by
  unfold checkBadgesStep
  dsimp only
  split_ifs <;> rfl

/-- `checkBadges` never touches the streak. -/
theorem checkBadges_streak (d : GamificationData) (now : String) :
    (checkBadges d now).data.streak = d.streak := by
  unfold checkBadges
  dsimp only
  exact foldl_preserves
    (fun acc : GamificationData × List String => acc.1.streak = d.streak)
    (checkBadgesStep now)
    (fun a b h => (checkBadgesStep_streak now a b).trans h)
    badgeDefinitions (d, []) rfl

/-- `awardXP` never touches the streak. -/
theorem awardXP_streak (d : GamificationData) (amount : Nat)
    (source now : String) :
    (awardXP d amount source now).data.streak = d.streak := by
  unfold awardXP
  dsimp only
  rw [checkBadges_streak]

/-- One badge-check step preserves the level-XP invariant: when it awards,
it recomputes the level from the new XP. -/
theorem checkBadgesStep_inv (now : String)
    (acc : GamificationData × List String) (b : BadgeDef)
    (h : levelInvariant acc.1) :
    levelInvariant (checkBadgesStep now acc b).1 := by
  unfold checkBadgesStep
  dsimp only
  split_ifs <;> first | exact h | rfl

/-- `checkBadges` preserves the level-XP invariant. -/
theorem checkBadges_inv (d : GamificationData) (now : String)
    (h : levelInvariant d) : levelInvariant (checkBadges d now).data := by
  unfold checkBadges
  dsimp only
  exact foldl_preserves
    (fun acc : GamificationData × List String => levelInvariant acc.1)
    (checkBadgesStep now)
    (fun a b => checkBadgesStep_inv now a b)
    badgeDefinitions (d, []) h

/-- `awardXP` establishes the level-XP invariant unconditionally: it sets
`level := calculateLevel(xp)` before `checkBadges`, which preserves it. -/
theorem awardXP_inv (d : GamificationData) (amount : Nat)
    (source now : String) :
    levelInvariant (awardXP d amount source now).data := by
  unfold awardXP
  dsimp only
  exact checkBadges_inv _ now rfl

/-- `updateStreak` preserves the level-XP invariant. -/
theorem updateStreak_inv (d : GamificationData) (today : Nat) (now : String)
    (h : levelInvariant d) :
    levelInvariant (updateStreak d today now).data := by
  unfold updateStreak
  by_cases h1 : d.streak.lastActivity = some today
  · rw [if_pos h1]
    exact h
  · rw [if_neg h1]
    dsimp only
    by_cases hb : 0 < calculateStreakBonus
        (if d.streak.lastActivity = some (today - 1) then
          d.streak.current + 1 else 1)
    · rw [if_pos hb]
      exact checkBadges_inv _ now (awardXP_inv _ _ _ _)
    · rw [if_neg hb]
      exact checkBadges_inv _ now h

/-- `checkBadges` only appends to the earned-badge list. -/
theorem checkBadges_badges_ext (d : GamificationData) (now : String) :
    ∃ t, (checkBadges d now).data.badges = d.badges ++ t := by
  unfold checkBadges
  dsimp only
  exact foldl_preserves
    (fun acc : GamificationData × List String =>
      ∃ t, acc.1.badges = d.badges ++ t)
    (checkBadgesStep now)
    (fun a b h => by
      rcases h with ⟨t, ht⟩
      unfold checkBadgesStep
      dsimp only
      split_ifs <;>
        first
        | exact ⟨t, ht⟩
        | exact ⟨t ++ [b.id], by simp [ht]⟩)
    badgeDefinitions (d, []) ⟨[], by simp⟩

/-- `awardXP` only appends to the earned-badge list. -/
theorem awardXP_badges_ext (d : GamificationData) (amount : Nat)
    (source now : String) :
    ∃ t, (awardXP d amount source now).data.badges = d.badges ++ t := by
  unfold awardXP
  dsimp only
  exact checkBadges_badges_ext _ now

/-- `updateStreak` only appends to the earned-badge list. -/
theorem updateStreak_badges_ext (d : GamificationData) (today : Nat)
    (now : String) :
    ∃ t, (updateStreak d today now).data.badges = d.badges ++ t := by
  unfold updateStreak
  by_cases h1 : d.streak.lastActivity = some today
  · rw [if_pos h1]
    exact ⟨[], by simp⟩
  · rw [if_neg h1]
    dsimp only
    by_cases hb : 0 < calculateStreakBonus
        (if d.streak.lastActivity = some (today - 1) then
          d.streak.current + 1 else 1)
    · rw [if_pos hb]
      dsimp only
      rcases awardXP_badges_ext _ _ "streak_bonus" now with ⟨t1, ht1⟩
      rcases checkBadges_badges_ext _ now with ⟨t2, ht2⟩
      exact ⟨t1 ++ t2, by rw [ht2, ht1]; simp⟩
    · rw [if_neg hb]
      dsimp only
      rcases checkBadges_badges_ext _ now with ⟨t2, ht2⟩
      exact ⟨t2, by rw [ht2]⟩

/-- `OnlyKey` distributes over append. -/
theorem onlyKey_append {k : String} {xs ys : List String}
    (hx : OnlyKey k xs) (hy : OnlyKey k ys) : OnlyKey k (xs ++ ys) := by
  intro x hmem
  rcases List.mem_append.mp hmem with h | h
  · exact hx x h
  · exact hy x h

/-- `checkBadges` saves at most under the gamification storage key. -/
theorem checkBadges_writes_only (d : GamificationData) (now : String) :
    OnlyKey storageKey (checkBadges d now).writes := by
  unfold checkBadges
  dsimp only
  split_ifs <;> intro x hmem
  · cases hmem
  · simpa using hmem

/-- `awardXP` writes only the gamification storage key. -/
theorem awardXP_writes_only (d : GamificationData) (amount : Nat)
    (source now : String) :
    OnlyKey storageKey (awardXP d amount source now).writes := by
  unfold awardXP
  dsimp only
  exact onlyKey_append (checkBadges_writes_only _ now)
    (fun x hmem => by simpa using hmem)

/-- `updateStreak` writes only the gamification storage key. -/
theorem updateStreak_writes_only (d : GamificationData) (today : Nat)
    (now : String) :
    OnlyKey storageKey (updateStreak d today now).writes := by
  unfold updateStreak
  by_cases h1 : d.streak.lastActivity = some today
  · rw [if_pos h1]
    intro x hmem
    cases hmem
  · rw [if_neg h1]
    dsimp only
    by_cases hb : 0 < calculateStreakBonus
        (if d.streak.lastActivity = some (today - 1) then
          d.streak.current + 1 else 1)
    · rw [if_pos hb]
      dsimp only
      exact onlyKey_append
        (onlyKey_append (awardXP_writes_only _ _ _ now)
          (checkBadges_writes_only _ now))
        (fun x hmem => by simpa using hmem)
    · rw [if_neg hb]
      dsimp only
      exact onlyKey_append
        (onlyKey_append (fun x hmem => by cases hmem)
          (checkBadges_writes_only _ now))
        (fun x hmem => by simpa using hmem)

/-- `logWorkout` establishes the level-XP invariant unconditionally. -/
theorem logWorkout_inv (d : GamificationData) (w : Workout) (today : Nat)
    (now : String) : levelInvariant (logWorkout d w today now).data := by
  unfold logWorkout
  dsimp only
  exact updateStreak_inv _ today now (awardXP_inv _ _ _ _)

/-- `logWorkout` only appends to the earned-badge list. -/
theorem logWorkout_badges_ext (d : GamificationData) (w : Workout)
    (today : Nat) (now : String) :
    ∃ t, (logWorkout d w today now).data.badges = d.badges ++ t := by
  unfold logWorkout
  dsimp only
  rcases awardXP_badges_ext _ _ _ now with ⟨t1, ht1⟩
  rcases updateStreak_badges_ext _ today now with ⟨t2, ht2⟩
  exact ⟨t1 ++ t2, by rw [ht2, ht1]; simp⟩

/-- `logWorkout` writes only the gamification storage key. -/
theorem logWorkout_writes_only (d : GamificationData) (w : Workout)
    (today : Nat) (now : String) :
    OnlyKey storageKey (logWorkout d w today now).writes := by
  unfold logWorkout
  dsimp only
  exact onlyKey_append (awardXP_writes_only _ _ _ now)
    (updateStreak_writes_only _ today now)

/-- `logSteps` preserves the level-XP invariant. -/
theorem logSteps_inv (d : GamificationData) (steps : Nat) (now : String)
    (h : levelInvariant d) : levelInvariant (logSteps d steps now).data := by
  unfold logSteps
  dsimp only
  by_cases hx : 0 < steps / 100
  · rw [if_pos hx]
    exact awardXP_inv _ _ _ now
  · rw [if_neg hx]
    exact h

/-- `logSteps` only appends to the earned-badge list. -/
theorem logSteps_badges_ext (d : GamificationData) (steps : Nat)
    (now : String) :
    ∃ t, (logSteps d steps now).data.badges = d.badges ++ t := by
  unfold logSteps
  dsimp only
  by_cases hx : 0 < steps / 100
  · rw [if_pos hx]
    exact awardXP_badges_ext _ _ _ now
  · rw [if_neg hx]
    exact ⟨[], by simp⟩

/-- `logSteps` writes only the gamification storage key. -/
theorem logSteps_writes_only (d : GamificationData) (steps : Nat)
    (now : String) : OnlyKey storageKey (logSteps d steps now).writes := by
  unfold logSteps
  dsimp only
  by_cases hx : 0 < steps / 100
  · rw [if_pos hx]
    exact awardXP_writes_only _ _ _ now
  · rw [if_neg hx]
    intro x hmem
    simpa using hmem

/-- `completeChallenge` establishes the level-XP invariant
unconditionally. -/
theorem completeChallenge_inv (d : GamificationData) (c : Challenge)
    (now : String) : levelInvariant (completeChallenge d c now).data := by
  unfold completeChallenge
  dsimp only
  exact awardXP_inv _ _ _ now

/-- `completeChallenge` only appends to the earned-badge list. -/
theorem completeChallenge_badges_ext (d : GamificationData) (c : Challenge)
    (now : String) :
    ∃ t, (completeChallenge d c now).data.badges = d.badges ++ t := by
  unfold completeChallenge
  dsimp only
  exact awardXP_badges_ext _ _ _ now

/-- `completeChallenge` writes only the gamification storage key. -/
theorem completeChallenge_writes_only (d : GamificationData) (c : Challenge)
    (now : String) :
    OnlyKey storageKey (completeChallenge d c now).writes := by
  unfold completeChallenge
  dsimp only
  exact awardXP_writes_only _ _ _ now

/-- `joinChallenge` never touches the earned-badge list. -/
theorem joinChallenge_badges_ext (d : GamificationData) (cid : Nat)
    (now : String) :
    ∃ t, (joinChallenge d cid now).data.badges = d.badges ++ t := by
  unfold joinChallenge
  split_ifs <;> exact ⟨[], by simp⟩

/-- `joinChallenge` writes only the gamification storage key. -/
theorem joinChallenge_writes_only (d : GamificationData) (cid : Nat)
    (now : String) :
    OnlyKey storageKey (joinChallenge d cid now).writes := by
  unfold joinChallenge
  split_ifs <;> intro x hmem
  · simpa using hmem
  · cases hmem

/-- `reset` writes only the gamification storage key. -/
theorem reset_writes_only (d : GamificationData) :
    OnlyKey storageKey (reset d).writes := by
  unfold reset
  intro x hmem
  simpa using hmem

/-- The full specification of what `checkBadges` does to the earned-badge
list: badges already earned are skipped, new awards are appended, and in
particular (from a duplicate-free list) every badge id appears at most
once afterwards, so its XP is granted at most once. -/
theorem checkBadges_badges_spec (d : GamificationData) (now : String)
    (h : d.badges.Nodup) :
    (checkBadges d now).data.badges = d.badges ++ (checkBadges d now).ret ∧
    (∀ i ∈ (checkBadges d now).ret, i ∉ d.badges) ∧
    (checkBadges d now).data.badges.Nodup := by
  unfold checkBadges
  dsimp only
  exact foldl_preserves
    (fun acc : GamificationData × List String =>
      acc.1.badges = d.badges ++ acc.2 ∧ (∀ i ∈ acc.2, i ∉ d.badges) ∧
        acc.1.badges.Nodup)
    (checkBadgesStep now)
    (fun a b hP => by
      obtain ⟨ha, hfresh, hnd⟩ := hP
      unfold checkBadgesStep
      dsimp only
      split_ifs with hc hcond
      · exact ⟨ha, hfresh, hnd⟩
      · have hnotmem : b.id ∉ a.1.badges := by
          intro hm
          simp only [List.contains, List.elem_eq_mem, decide_eq_true_eq] at hc
          exact hc hm
        refine ⟨?_, ?_, ?_⟩
        · dsimp only
          rw [ha, List.append_assoc]
        · intro i hi
          rcases List.mem_append.mp hi with hi | hi
          · exact hfresh i hi
          · have hib : i = b.id := by simpa using hi
            subst hib
            intro hmem
            exact hnotmem (ha ▸ List.mem_append_left _ hmem)
        · dsimp only
          refine List.Nodup.append hnd (List.nodup_singleton _) ?_
          intro x hx hx'
          have hxb : x = b.id := by simpa using hx'
          subst hxb
          exact hnotmem hx
      · exact ⟨ha, hfresh, hnd⟩)
    badgeDefinitions (d, []) ⟨by simp, by simp, h⟩

/-- Post-state and result of `updateStreak` when activity was not logged
today: the current streak becomes `streakCur` and the method reports an
update with that value and the corresponding bonus. -/
theorem updateStreak_update (d : GamificationData) (today : Nat)
    (now : String) (h1 : d.streak.lastActivity ≠ some today) :
    (updateStreak d today now).data.streak.current = streakCur d today ∧
    (updateStreak d today now).data.streak.lastActivity = some today ∧
    ∃ lng, (updateStreak d today now).ret =
      .updated (streakCur d today) lng
        (calculateStreakBonus (streakCur d today)) := by
  unfold updateStreak streakCur
  rw [if_neg h1]
  dsimp only
  by_cases hb : 0 < calculateStreakBonus
      (if d.streak.lastActivity = some (today - 1) then
        d.streak.current + 1 else 1)
  · rw [if_pos hb]
    dsimp only
    simp only [checkBadges_streak, awardXP_streak]
    exact ⟨trivial, trivial, _, rfl⟩
  · rw [if_neg hb]
    dsimp only
    simp only [checkBadges_streak]
    exact ⟨trivial, trivial, _, rfl⟩

end GamificationManager

/-! ## C6: streak semantics -/

open GamificationManager in
/-- **C6.** `updateStreak` implements consecutive-day streaks: last activity
yesterday increments the current streak by 1; last activity today leaves the
state untouched and reports `streakUpdated = false`; last activity before
yesterday, or none, resets the current streak to 1. -/
theorem C6_streak_consecutive_days (d : GamificationData) (today : Nat)
    (now : String) :
    (d.streak.lastActivity = some today →
      (updateStreak d today now).data = d ∧
      (updateStreak d today now).ret = .noUpdate d.streak.current) ∧
    (1 ≤ today → d.streak.lastActivity = some (today - 1) →
      (updateStreak d today now).data.streak.current = d.streak.current + 1 ∧
      ∃ lng bonus, (updateStreak d today now).ret =
        .updated (d.streak.current + 1) lng bonus) ∧
    ((d.streak.lastActivity = none ∨
       ∃ last, d.streak.lastActivity = some last ∧ last + 1 < today) →
      (updateStreak d today now).data.streak.current = 1 ∧
      ∃ lng bonus, (updateStreak d today now).ret = .updated 1 lng bonus) := by
  refine ⟨?_, ?_, ?_⟩
  · intro h1
    unfold updateStreak
    rw [if_pos h1]
    exact ⟨rfl, rfl⟩
  · intro ht h1
    have hne : d.streak.lastActivity ≠ some today := by
      rw [h1]
      intro hc
      have := Option.some.inj hc
      omega
    have hcur : streakCur d today = d.streak.current + 1 := by
      unfold streakCur
      rw [if_pos h1]
    obtain ⟨hc, _, lng, hr⟩ := updateStreak_update d today now hne
    refine ⟨by rw [hc, hcur], lng, calculateStreakBonus (streakCur d today),
      by rw [hr, hcur]⟩
  · intro h
    have hne : d.streak.lastActivity ≠ some today := by
      rcases h with h | ⟨last, hl, hlt⟩
      · rw [h]; exact fun hc => Option.noConfusion hc
      · rw [hl]
        intro hc
        have := Option.some.inj hc
        omega
    have hcur : streakCur d today = 1 := by
      unfold streakCur
      rcases h with h | ⟨last, hl, hlt⟩
      · rw [if_neg (by rw [h]; exact fun hc => Option.noConfusion hc)]
      · rw [if_neg (by
          rw [hl]
          intro hc
          have := Option.some.inj hc
          omega)]
    obtain ⟨hc, _, lng, hr⟩ := updateStreak_update d today now hne
    refine ⟨by rw [hc, hcur], lng, calculateStreakBonus (streakCur d today),
      by rw [hr, hcur]⟩

/-- Witness for C6 at a concrete state: last activity on day 9, updating on
day 10 increments the streak from 2 to 3. -/
theorem C6_witness :
    (GamificationManager.updateStreak
      { GamificationManager.getDefaultData with
          streak := { current := 2, longest := 3, lastActivity := some 9 } }
      10 "2025-01-10T08:00:00.000Z").data.streak.current = 2 + 1 ∧
    ∃ lng bonus,
      (GamificationManager.updateStreak
        { GamificationManager.getDefaultData with
            streak := { current := 2, longest := 3, lastActivity := some 9 } }
        10 "2025-01-10T08:00:00.000Z").ret = .updated (2 + 1) lng bonus :=
  (C6_streak_consecutive_days _ 10 _).2.1 (by decide) (by decide)

/-! ## C7: storage-key isolation of the two managers -/

/-- **C7.** Every (state-mutating) method of `GamificationManager` writes
only the localStorage key `GamifyFit_gamification`, and every method of
`ActivityTrackerManager` itself writes only `GamifyFit_activity`; the
tracker's cross-manager effects go through `window.Gamification` methods,
whose writes are again only the gamification key — never a foreign key
written directly. -/
theorem C7_storage_key_isolation :
    (∀ d amount source now, OnlyKey GamificationManager.storageKey
        (GamificationManager.awardXP d amount source now).writes) ∧
    (∀ d now, OnlyKey GamificationManager.storageKey
        (GamificationManager.checkBadges d now).writes) ∧
    (∀ d today now, OnlyKey GamificationManager.storageKey
        (GamificationManager.updateStreak d today now).writes) ∧
    (∀ d w today now, OnlyKey GamificationManager.storageKey
        (GamificationManager.logWorkout d w today now).writes) ∧
    (∀ d steps now, OnlyKey GamificationManager.storageKey
        (GamificationManager.logSteps d steps now).writes) ∧
    (∀ d c now, OnlyKey GamificationManager.storageKey
        (GamificationManager.completeChallenge d c now).writes) ∧
    (∀ d cid now, OnlyKey GamificationManager.storageKey
        (GamificationManager.joinChallenge d cid now).writes) ∧
    (∀ d, OnlyKey GamificationManager.storageKey
        (GamificationManager.reset d).writes) ∧
    (∀ a g, OnlyKey ActivityTrackerManager.storageKey
        (ActivityTrackerManager.enableTracking a g).actWrites ∧
      (ActivityTrackerManager.enableTracking a g).gamWrites = []) ∧
    (∀ a g count tk now, OnlyKey ActivityTrackerManager.storageKey
        (ActivityTrackerManager.logSteps a g count tk now).actWrites ∧
      OnlyKey GamificationManager.storageKey
        (ActivityTrackerManager.logSteps a g count tk now).gamWrites) ∧
    (∀ a g amount tk now, OnlyKey ActivityTrackerManager.storageKey
        (ActivityTrackerManager.logCalories a g amount tk now).actWrites ∧
      (ActivityTrackerManager.logCalories a g amount tk now).gamWrites = []) ∧
    (∀ a g minutes tk now, OnlyKey ActivityTrackerManager.storageKey
        (ActivityTrackerManager.logActiveMinutes a g minutes tk now).actWrites ∧
      (ActivityTrackerManager.logActiveMinutes a g minutes tk now).gamWrites
        = []) ∧
    (∀ a g glasses tk now, OnlyKey ActivityTrackerManager.storageKey
        (ActivityTrackerManager.logWater a g glasses tk now).actWrites ∧
      (ActivityTrackerManager.logWater a g glasses tk now).gamWrites = []) ∧
    (∀ a g w tk now today, OnlyKey ActivityTrackerManager.storageKey
        (ActivityTrackerManager.logActivity a g w tk now today).actWrites ∧
      OnlyKey GamificationManager.storageKey
        (ActivityTrackerManager.logActivity a g w tk now today).gamWrites) ∧
    (∀ a g kg tk now, OnlyKey ActivityTrackerManager.storageKey
        (ActivityTrackerManager.logWeight a g kg tk now).actWrites ∧
      (ActivityTrackerManager.logWeight a g kg tk now).gamWrites = []) ∧
    (∀ a g patch, OnlyKey ActivityTrackerManager.storageKey
        (ActivityTrackerManager.setGoals a g patch).actWrites ∧
      (ActivityTrackerManager.setGoals a g patch).gamWrites = []) ∧
    (∀ a g tk, OnlyKey ActivityTrackerManager.storageKey
        (ActivityTrackerManager.resetToday a g tk).actWrites ∧
      (ActivityTrackerManager.resetToday a g tk).gamWrites = []) ∧
    (∀ a g dk iso draw, OnlyKey ActivityTrackerManager.storageKey
        (ActivityTrackerManager.seedDemoData a g dk iso draw).actWrites ∧
      (ActivityTrackerManager.seedDemoData a g dk iso draw).gamWrites = []) := by
  refine ⟨GamificationManager.awardXP_writes_only,
    GamificationManager.checkBadges_writes_only,
    GamificationManager.updateStreak_writes_only,
    GamificationManager.logWorkout_writes_only,
    GamificationManager.logSteps_writes_only,
    GamificationManager.completeChallenge_writes_only,
    GamificationManager.joinChallenge_writes_only,
    GamificationManager.reset_writes_only,
    ?_, ?_, ?_, ?_, ?_, ?_, ?_, ?_, ?_, ?_⟩
  · intro a g
    exact ⟨fun x hmem => by
      unfold ActivityTrackerManager.enableTracking at hmem
      simpa using hmem, rfl⟩
  · intro a g count tk now
    refine ⟨fun x hmem => by
      unfold ActivityTrackerManager.logSteps at hmem
      simpa using hmem, ?_⟩
    show OnlyKey GamificationManager.storageKey
      (GamificationManager.logSteps g count now).writes
    exact GamificationManager.logSteps_writes_only g count now
  · intro a g amount tk now
    exact ⟨fun x hmem => by
      unfold ActivityTrackerManager.logCalories at hmem
      simpa using hmem, rfl⟩
  · intro a g minutes tk now
    exact ⟨fun x hmem => by
      unfold ActivityTrackerManager.logActiveMinutes at hmem
      simpa using hmem, rfl⟩
  · intro a g glasses tk now
    exact ⟨fun x hmem => by
      unfold ActivityTrackerManager.logWater at hmem
      simpa using hmem, rfl⟩
  · intro a g w tk now today
    refine ⟨fun x hmem => by
      unfold ActivityTrackerManager.logActivity at hmem
      simpa using hmem, ?_⟩
    show OnlyKey GamificationManager.storageKey
      (GamificationManager.logWorkout g
        { duration := w.duration, calories := w.calories,
          type := if w.type = "" then "general" else w.type } today now).writes
    exact GamificationManager.logWorkout_writes_only g _ today now
  · intro a g kg tk now
    exact ⟨fun x hmem => by
      unfold ActivityTrackerManager.logWeight at hmem
      simpa using hmem, rfl⟩
  · intro a g patch
    exact ⟨fun x hmem => by
      unfold ActivityTrackerManager.setGoals at hmem
      simpa using hmem, rfl⟩
  · intro a g tk
    exact ⟨fun x hmem => by
      unfold ActivityTrackerManager.resetToday at hmem
      simpa using hmem, rfl⟩
  · intro a g dk iso draw
    exact ⟨fun x hmem => by
      unfold ActivityTrackerManager.seedDemoData at hmem
      simpa using hmem, rfl⟩

/-- Witness for C7: a concrete `awardXP` call writes only the gamification
key. -/
theorem C7_witness :
    OnlyKey GamificationManager.storageKey
      (GamificationManager.awardXP GamificationManager.getDefaultData 10
        "steps" "2025-01-01T00:00:00.000Z").writes :=
  C7_storage_key_isolation.1 _ 10 "steps" "2025-01-01T00:00:00.000Z"

/-! ## C8: level-XP consistency -/

/-- **C8.** The invariant `data.level = calculateLevel(data.xp)` holds of
the default data and is preserved by every XP-mutating operation; the
operations that add XP (`awardXP`, `logWorkout`, `completeChallenge`, and
`logSteps` when XP is earned) re-establish it unconditionally because every
XP addition recomputes the level. -/
theorem C8_level_xp_consistency :
    levelInvariant GamificationManager.getDefaultData ∧
    (∀ d amount source now,
      levelInvariant (GamificationManager.awardXP d amount source now).data) ∧
    (∀ d now, levelInvariant d →
      levelInvariant (GamificationManager.checkBadges d now).data) ∧
    (∀ d w today now,
      levelInvariant (GamificationManager.logWorkout d w today now).data) ∧
    (∀ d steps now, levelInvariant d →
      levelInvariant (GamificationManager.logSteps d steps now).data) ∧
    (∀ d c now,
      levelInvariant (GamificationManager.completeChallenge d c now).data) ∧
    (∀ d today now, levelInvariant d →
      levelInvariant (GamificationManager.updateStreak d today now).data) :=
  ⟨by unfold levelInvariant; decide,
   GamificationManager.awardXP_inv,
   GamificationManager.checkBadges_inv,
   GamificationManager.logWorkout_inv,
   GamificationManager.logSteps_inv,
   GamificationManager.completeChallenge_inv,
   GamificationManager.updateStreak_inv⟩

/-- Witness for C8: the invariant propagates through a concrete
`checkBadges` run on the default data. -/
theorem C8_witness :
    levelInvariant (GamificationManager.checkBadges
      GamificationManager.getDefaultData "2025-01-01T00:00:00.000Z").data :=
  C8_level_xp_consistency.2.2.1 _ "2025-01-01T00:00:00.000Z"
    (by unfold levelInvariant; decide)

/-! ## C9: badge uniqueness and monotonicity -/

/-- **C9.** `checkBadges` skips already-earned badge ids and only appends
fresh ones, so badge ids stay duplicate-free (each badge's XP is granted at
most once); no operation other than `reset` removes entries from
`data.badges`, and `reset` replaces them with the default empty list. -/
theorem C9_badges_unique_monotone (d : GamificationData) (now : String)
    (h : d.badges.Nodup) :
    ((GamificationManager.checkBadges d now).data.badges =
       d.badges ++ (GamificationManager.checkBadges d now).ret) ∧
    (∀ i ∈ (GamificationManager.checkBadges d now).ret, i ∉ d.badges) ∧
    (GamificationManager.checkBadges d now).data.badges.Nodup ∧
    (∀ amount source, ∃ t,
      (GamificationManager.awardXP d amount source now).data.badges =
        d.badges ++ t) ∧
    (∀ today, ∃ t,
      (GamificationManager.updateStreak d today now).data.badges =
        d.badges ++ t) ∧
    (∀ w today, ∃ t,
      (GamificationManager.logWorkout d w today now).data.badges =
        d.badges ++ t) ∧
    (∀ steps, ∃ t,
      (GamificationManager.logSteps d steps now).data.badges =
        d.badges ++ t) ∧
    (∀ c, ∃ t,
      (GamificationManager.completeChallenge d c now).data.badges =
        d.badges ++ t) ∧
    (∀ cid, ∃ t,
      (GamificationManager.joinChallenge d cid now).data.badges =
        d.badges ++ t) ∧
    (GamificationManager.reset d).data.badges = [] := by
  obtain ⟨h1, h2, h3⟩ := GamificationManager.checkBadges_badges_spec d now h
  exact ⟨h1, h2, h3,
    fun amount source => GamificationManager.awardXP_badges_ext d amount source now,
    fun today => GamificationManager.updateStreak_badges_ext d today now,
    fun w today => GamificationManager.logWorkout_badges_ext d w today now,
    fun steps => GamificationManager.logSteps_badges_ext d steps now,
    fun c => GamificationManager.completeChallenge_badges_ext d c now,
    fun cid => GamificationManager.joinChallenge_badges_ext d cid now,
    rfl⟩

/-- Witness for C9 at the default (duplicate-free) badge list. -/
theorem C9_witness :
    (GamificationManager.checkBadges GamificationManager.getDefaultData
        "2025-01-01T00:00:00.000Z").data.badges =
      GamificationManager.getDefaultData.badges ++
        (GamificationManager.checkBadges GamificationManager.getDefaultData
          "2025-01-01T00:00:00.000Z").ret :=
  (C9_badges_unique_monotone _ "2025-01-01T00:00:00.000Z" (by decide)).1

/-! ## C5: OAuth callback failure handling -/

open OAuthCallback in
/-- **C5.** Whenever the OAuth callback fails authentication — provider
error, state mismatch, failed or non-ok token exchange or token body read,
failed or non-ok userinfo fetch or body read, or a thrown signing step —
the handler responds 302 to `/auth.html?error=...` and sets no cookie, in
particular no session cookie. -/
theorem C5_oauth_failure_redirects (req : CallbackRequest)
    (env : CallbackEnv) (enc : String → String) (h : authFails req env) :
    (handler req env enc).status = 302 ∧
    strBeginsWith (handler req env enc).redirect "/auth.html?error=" = true ∧
    (handler req env enc).setCookies = [] := by
  rcases hre : req.error with _ | e
  · by_cases hs : req.state ≠
        cookieGet (parseCookies req.cookieHeader) "oauth_state"
    · have hred : handler req env enc =
          ⟨302, "/auth.html?error=invalid_state", []⟩ := by
        simp [handler, hre, if_pos hs]
      rw [hred]
      exact ⟨rfl, by decide, rfl⟩
    · rcases htf : env.tokenFetch with u | tokOk
      · have hred : handler req env enc =
            ⟨302, "/auth.html?error=callback_failed", []⟩ := by
          simp [handler, hre, if_neg hs, htf]
        rw [hred]
        exact ⟨rfl, by decide, rfl⟩
      · cases tokOk
        · cases hte : env.tokenErrorTextThrows
          · have hred : handler req env enc =
                ⟨302, "/auth.html?error=token_exchange_failed", []⟩ := by
              simp [handler, hre, if_neg hs, htf, hte]
            rw [hred]
            exact ⟨rfl, by decide, rfl⟩
          · have hred : handler req env enc =
                ⟨302, "/auth.html?error=callback_failed", []⟩ := by
              simp [handler, hre, if_neg hs, htf, hte]
            rw [hred]
            exact ⟨rfl, by decide, rfl⟩
        · cases htj : env.tokenJsonThrows
          · rcases huf : env.userFetch with u | userOk
            · have hred : handler req env enc =
                  ⟨302, "/auth.html?error=callback_failed", []⟩ := by
                simp [handler, hre, if_neg hs, htf, htj, huf]
              rw [hred]
              exact ⟨rfl, by decide, rfl⟩
            · cases userOk
              · have hred : handler req env enc =
                    ⟨302, "/auth.html?error=failed_to_get_user", []⟩ := by
                  simp [handler, hre, if_neg hs, htf, htj, huf]
                rw [hred]
                exact ⟨rfl, by decide, rfl⟩
              · cases huj : env.userJsonThrows
                · cases hsg : env.signThrows
                  · exfalso
                    rcases h with h | h | h | h | h | h | h | h | h <;>
                      simp_all
                  · have hred : handler req env enc =
                        ⟨302, "/auth.html?error=callback_failed", []⟩ := by
                      simp [handler, hre, if_neg hs, htf, htj, huf, huj, hsg]
                    rw [hred]
                    exact ⟨rfl, by decide, rfl⟩
                · have hred : handler req env enc =
                      ⟨302, "/auth.html?error=callback_failed", []⟩ := by
                    simp [handler, hre, if_neg hs, htf, htj, huf, huj]
                  rw [hred]
                  exact ⟨rfl, by decide, rfl⟩
          · have hred : handler req env enc =
                ⟨302, "/auth.html?error=callback_failed", []⟩ := by
              simp [handler, hre, if_neg hs, htf, htj]
            rw [hred]
            exact ⟨rfl, by decide, rfl⟩
  · have hred : handler req env enc =
        ⟨302, "/auth.html?error=" ++ enc e, []⟩ := by
      simp [handler, hre]
    rw [hred]
    exact ⟨rfl, strBeginsWith_append "/auth.html?error=" (enc e), rfl⟩

/-- Witness for C5: the provider reporting `access_denied` yields a 302 to
an error URL with no cookies set. -/
theorem C5_witness :
    (OAuthCallback.handler
      { code := none, state := none, error := some "access_denied",
        cookieHeader := none }
      { tokenFetch := .ok true, tokenErrorTextThrows := false,
        tokenJsonThrows := false, userFetch := .ok true,
        userJsonThrows := false, signThrows := false,
        sessionToken := "jwt", production := false }
      (fun s => s)).status = 302 ∧
    strBeginsWith (OAuthCallback.handler
      { code := none, state := none, error := some "access_denied",
        cookieHeader := none }
      { tokenFetch := .ok true, tokenErrorTextThrows := false,
        tokenJsonThrows := false, userFetch := .ok true,
        userJsonThrows := false, signThrows := false,
        sessionToken := "jwt", production := false }
      (fun s => s)).redirect "/auth.html?error=" = true ∧
    (OAuthCallback.handler
      { code := none, state := none, error := some "access_denied",
        cookieHeader := none }
      { tokenFetch := .ok true, tokenErrorTextThrows := false,
        tokenJsonThrows := false, userFetch := .ok true,
        userJsonThrows := false, signThrows := false,
        sessionToken := "jwt", production := false }
      (fun s => s)).setCookies = [] :=
  C5_oauth_failure_redirects _ _ _ (Or.inl (by decide))

/-! ## C10: generated plans -/

/-- Fold-membership principle: if each step only appends elements
satisfying `Q`, every element of the fold satisfies `Q` or was already in
the accumulator. -/
theorem foldl_mem_of_step {α β : Type _} (f : List α → β → List α)
    (Q : α → Prop)
    (hstep : ∀ acc b x, x ∈ f acc b → x ∈ acc ∨ Q x) :
    ∀ (l : List β) (acc : List α), (∀ x ∈ acc, Q x) →
      ∀ x ∈ l.foldl f acc, Q x := by
  intro l
  induction l with
  | nil => exact fun acc hacc x hx => hacc x hx
  | cons b bs ih =>
    intro acc hacc x hx
    refine ih (f acc b) ?_ x hx
    intro y hy
    rcases hstep acc b y hy with h | h
    · exact hacc y h
    · exact h

namespace PlanGenerator

/-- Every split table row (and the fallback) has 7 entries. -/
theorem getWorkoutSplit_length (days : Nat) (goal : String) :
    (getWorkoutSplit days goal).length = 7 := by
  unfold getWorkoutSplit
  dsimp only
  split_ifs <;> rfl

/-- `selectExercises` yields at most 8 exercises, each derived (via
`createExerciseWithSets`) from an exercise within the profile's difficulty
cap — provided the shuffle oracle only rearranges its input, as the JS
array sort does. -/
theorem selectExercises_spec (workoutType fitnessLevel : String)
    (equipment : List String) (duration : Nat)
    (shuffle : List Exercise → List Exercise)
    (hsh : ∀ l x, x ∈ shuffle l → x ∈ l) :
    (selectExercises workoutType fitnessLevel equipment duration
      shuffle).length ≤ 8 ∧
    ∀ pe ∈ selectExercises workoutType fitnessLevel equipment duration
      shuffle,
      ∃ e : Exercise, e.difficulty ≤ maxDifficultyFor fitnessLevel ∧
        pe = createExerciseWithSets e fitnessLevel := by
  unfold selectExercises
  dsimp only
  constructor
  · rw [List.length_take]
    exact le_trans (min_le_left _ _) (min_le_right _ _)
  · intro pe hpe
    have hpe' := List.take_subset _ _ hpe
    refine foldl_mem_of_step _
      (fun x => ∃ e : Exercise,
        e.difficulty ≤ maxDifficultyFor fitnessLevel ∧
          x = createExerciseWithSets e fitnessLevel)
      ?_ _ _ (by intro x hx; cases hx) pe hpe'
    intro acc b x hx
    rcases List.mem_append.mp hx with hx | hx
    · exact Or.inl hx
    · right
      rcases List.mem_map.mp hx with ⟨e, he, rfl⟩
      have he1 : e ∈ shuffle (((exerciseDatabase b).getD []).filter
          (fun ex => decide (ex.difficulty ≤ maxDifficultyFor fitnessLevel) &&
            (equipment.contains "none" || equipment.contains ex.equipment))) :=
        List.take_subset _ _ he
      have he2 := hsh _ _ he1
      have he3 := List.mem_filter.mp he2
      refine ⟨e, ?_, rfl⟩
      have := he3.2
      simp only [Bool.and_eq_true, decide_eq_true_eq] at this
      exact this.1

/-- Both branches of the day constructor use the day name at the index. -/
theorem planDay_name (p : UserProfile)
    (shuffle : List Exercise → List Exercise) (i : Nat)
    (workoutType : String) :
    (planDay p shuffle i workoutType).name = dayNames.getD i "" := by
  unfold planDay
  split_ifs <;> rfl

/-- Every generated day is a rest day worth 20 XP or a workout day with at
most 8 exercises within the difficulty cap. -/
theorem planDay_spec (p : UserProfile)
    (shuffle : List Exercise → List Exercise)
    (hsh : ∀ l x, x ∈ shuffle l → x ∈ l) (i : Nat) (workoutType : String) :
    ((planDay p shuffle i workoutType).isRest = true ∧
      (planDay p shuffle i workoutType).totalXp = 20) ∨
    ((planDay p shuffle i workoutType).isRest = false ∧
      (planDay p shuffle i workoutType).exercises.length ≤ 8 ∧
      ∀ pe ∈ (planDay p shuffle i workoutType).exercises,
        ∃ e : Exercise, e.difficulty ≤ maxDifficultyFor p.fitnessLevel ∧
          pe = createExerciseWithSets e p.fitnessLevel) := by
  unfold planDay
  split_ifs with hw
  · exact Or.inl ⟨rfl, rfl⟩
  · right
    obtain ⟨hlen, hmem⟩ := selectExercises_spec workoutType p.fitnessLevel
      p.equipment p.duration shuffle hsh
    exact ⟨rfl, hlen, hmem⟩

end PlanGenerator

open PlanGenerator in
/-- **C10.** For every user profile (unrecognized `daysPerWeek` or `goal`
values fall back to the 4-day general split, which also has 7 entries),
`generatePlan` returns exactly 7 days named Mon through Sun in order, each
being a rest day with `totalXp = 20` or a workout day with at most 8
exercises, each within the difficulty cap of the profile's fitness level. -/
theorem C10_generate_plan_shape (p : UserProfile)
    (shuffle : List Exercise → List Exercise)
    (hsh : ∀ l x, x ∈ shuffle l → x ∈ l) :
    (generatePlan p shuffle).days.map PlanDay.name =
      ["Mon", "Tue", "Wed", "Thu", "Fri", "Sat", "Sun"] ∧
    ∀ day ∈ (generatePlan p shuffle).days,
      (day.isRest = true ∧ day.totalXp = 20) ∨
      (day.isRest = false ∧ day.exercises.length ≤ 8 ∧
        ∀ pe ∈ day.exercises,
          ∃ e : Exercise, e.difficulty ≤ maxDifficultyFor p.fitnessLevel ∧
            pe = createExerciseWithSets e p.fitnessLevel) := by
  have hdays : (generatePlan p shuffle).days =
      (getWorkoutSplit p.daysPerWeek p.goal).enum.map
        (fun iw => planDay p shuffle iw.1 iw.2) := rfl
  constructor
  · rw [hdays, List.map_map]
    have hcongr : ((getWorkoutSplit p.daysPerWeek p.goal).enum.map
          (PlanDay.name ∘ fun iw => planDay p shuffle iw.1 iw.2)) =
        (getWorkoutSplit p.daysPerWeek p.goal).enum.map
          (fun iw => dayNames.getD iw.1 "") := by
      apply List.map_congr_left
      intro iw _
      exact planDay_name p shuffle iw.1 iw.2
    rw [hcongr]
    have hsplit : (getWorkoutSplit p.daysPerWeek p.goal).enum.map
          (fun iw => dayNames.getD iw.1 "") =
        ((getWorkoutSplit p.daysPerWeek p.goal).enum.map Prod.fst).map
          (fun i => dayNames.getD i "") := by
      rw [List.map_map]
      rfl
    rw [hsplit, List.enum_map_fst, getWorkoutSplit_length]
    decide
  · intro day hday
    rw [hdays] at hday
    rcases List.mem_map.mp hday with ⟨iw, _, rfl⟩
    exact planDay_spec p shuffle hsh iw.1 iw.2

/-- Witness for C10 with the identity shuffle at a typical profile. -/
theorem C10_witness :
    (PlanGenerator.generatePlan
      { fitnessLevel := "beginner", goal := "general", daysPerWeek := 4,
        equipment := ["none"], duration := 45 }
      (fun l => l)).days.map PlanGenerator.PlanDay.name =
      ["Mon", "Tue", "Wed", "Thu", "Fri", "Sat", "Sun"] :=
  (C10_generate_plan_shape _ _ (fun _ _ h => h)).1

end GamifyFit

